import Mathlib

/-!
# Verification of the Ferrellgas data-acquisition pipeline

A shallow embedding of the `custom_components/ferrellgas` integration
(`api.py`, `sensor.py`) and proofs about its parsing, enrichment and
derivation behaviour.

Modelling conventions:
* JSON-decoded Python values are modelled by the inductive `PyVal`.
  Python's `json.loads` produces `None`, `bool`, `int`, `float`, `str`,
  `list` and `dict` values only; dictionaries are modelled as association
  lists with (as produced by `json.loads`) unique keys.
* Python floats are modelled as rationals (`ℚ`); Python's builtin
  `round(x, n)` is banker's rounding (round half to even), modelled by
  `pyRound` on `ℚ`.
* Python booleans are instances of `int` (`isinstance(True, int)` holds),
  so every `isinstance(value, (int, float))` test accepts booleans, with
  `float(True) = 1.0` and `float(False) = 0.0`; the embedding reproduces
  this.
* Fallible operations are modelled with `Except`; the exception hierarchy
  `FerrellgasApiError` \(with subclasses `FerrellgasAuthenticationError`
  and `FerrellgasConnectionError`\) is modelled by `ApiFailure`.
* The external datetime parser (`homeassistant.util.dt.parse_datetime`
  composed with the `date.fromisoformat` fallback) is kept abstract: the
  parsing functions receive it as an explicit argument
  `pd : String → Option DT`.
-/

namespace Ferrellgas

/-- A Python value as produced by `json.loads`. -/
inductive PyVal where
  | none : PyVal
  | bool (b : Bool) : PyVal
  | int (n : ℤ) : PyVal
  | float (q : ℚ) : PyVal
  | str (s : String) : PyVal
  | list (xs : List PyVal) : PyVal
  | dict (kvs : List (String × PyVal)) : PyVal

/-- Python truthiness (`bool(v)`): `None`, `False`, zero, the empty
string, the empty list and the empty dict are falsy. -/
def pyTruthy : PyVal → Bool
  | .none => false
  | .bool b => b
  | .int n => n ≠ 0
  | .float q => q ≠ 0
  | .str s => s ≠ ""
  | .list xs => ¬ xs.isEmpty
  | .dict kvs => ¬ kvs.isEmpty

/-- Python's builtin `str`.  Numbers, lists and dicts are rendered by
placeholders: the pipeline only ever inspects the result for emptiness or
passes it through verbatim, and `str` of any Python value other than a
string is a nonempty string, which the placeholders preserve. -/
def pyStr : PyVal → String
  | .none => "None"
  | .bool true => "True"
  | .bool false => "False"
  | .int n => toString n
  | .float q => toString q
  | .str s => s
  | .list _ => "[...]"
  | .dict _ => "(dict)"

/-- Dictionary lookup: `some` value for a dict containing the key,
`none` otherwise (also for non-dict values, which have no `.get`). -/
def dictGet : PyVal → String → Option PyVal
  | .dict kvs, k => (kvs.find? (fun kv => kv.1 = k)).map (fun kv => kv.2)
  | _, _ => Option.none

/-- Python `d.get(k)` (default `None`). -/
def pyGet (v : PyVal) (k : String) : PyVal := (dictGet v k).getD .none

/-- Python `d.get(k, default)`. -/
def pyGetD (v : PyVal) (k : String) (d : PyVal) : PyVal := (dictGet v k).getD d

/-- Python `a or b`. -/
def pyOr (a b : PyVal) : PyVal := if pyTruthy a then a else b

/-- Python `isinstance(v, dict)`. -/
def PyVal.isDict : PyVal → Bool
  | .dict _ => true
  | _ => false

/-- Python `v == s` for a string literal `s`: true exactly for the equal
string (Python equality between a string and any non-string is `False`). -/
def pyEqStr (v : PyVal) (s : String) : Bool :=
  match v with
  | .str t => t = s
  | _ => false

/-- `FerrellgasApiClient._to_float`:
`float(value) if isinstance(value, (int, float)) else None`.
Python booleans are instances of `int`, so they are accepted and coerce
to `1.0` / `0.0`. -/
def to_float : PyVal → Option ℚ
  | .bool b => some (if b then 1 else 0)
  | .int n => some (n : ℚ)
  | .float q => some q
  | _ => Option.none

/-- Timestamps: the pipeline treats parsed datetimes opaquely, so we model
them by their normalized representation. -/
abbrev DT : Type := String

/-- `FerrellgasApiClient._parse_datetime`: non-strings and the empty
string yield `None`; a nonempty string is handed to the external parser
chain (`dt_util.parse_datetime` with UTC normalization, then
`date.fromisoformat` combined with midnight UTC), abstracted as `pd`,
whose failure also yields `None` — never an error. -/
def parse_datetime (pd : String → Option DT) (v : PyVal) : Option DT :=
  match v with
  | .str s => if s = "" then Option.none else pd s
  | _ => Option.none

/-- Python's builtin `round(x, ndigits)`: round half to even at the given
decimal place, modelled exactly on `ℚ`. -/
def pyRound (x : ℚ) (ndigits : ℕ) : ℚ :=
  let s : ℚ := x * (10 : ℚ) ^ ndigits
  let f : ℤ := ⌊s⌋
  let r : ℤ :=
    if s - f < 1/2 then f
    else if 1/2 < s - f then f + 1
    else if f % 2 = 0 then f else f + 1
  (r : ℚ) / (10 : ℚ) ^ ndigits

/-- `FerrellgasOrderLine` (api.py): a single line item from an order. -/
structure FerrellgasOrderLine where
  product : String
  quantity : ℚ
  unit_of_measure : String
  unit_price : ℚ
  total_price : ℚ
deriving DecidableEq

/-- `FerrellgasOrderDetail` (api.py): detailed order data. -/
structure FerrellgasOrderDetail where
  order_id : String
  order_date : Option DT
  complete_date : Option DT
  status : String
  service_description : String
  grand_total : ℚ
  total_tax : ℚ
  propane_gallons : Option ℚ
  propane_price_per_gallon : Option ℚ
  propane_subtotal : Option ℚ
  fuel_surcharge : Option ℚ
  hazmat_fee : Option ℚ
  lines : List FerrellgasOrderLine
deriving DecidableEq

/-- `FerrellgasTankData` (api.py): parsed tank data from the account
summary. -/
structure FerrellgasTankData where
  installed_product_id : String
  site_id : String
  site_name : String
  product_description : String
  product_id : Option String
  full_capacity : Option ℚ
  fill_capacity : Option ℚ
  est_curr_pct : Option ℚ
  estimated_percentage_date : Option DT
  last_delivery : Option FerrellgasOrderDetail := Option.none
deriving DecidableEq

/-- `FerrellgasAccountData` (api.py): parsed account summary data. -/
structure FerrellgasAccountData where
  account_id : String
  account_name : String
  balance : Option ℚ
  tanks : List FerrellgasTankData
deriving DecidableEq

/-! ## Derivation layer (sensor.py `TANK_SENSORS` value functions) -/

/-- `value_fn` of the `estimated_gallons` sensor:
`round((est_curr_pct / 100.0) * full_capacity, 1)` when both inputs are
present, else `None`. -/
def estimated_gallons (tank : FerrellgasTankData) : Option ℚ :=
  match tank.est_curr_pct, tank.full_capacity with
  | some p, some c => some (pyRound (p / 100 * c) 1)
  | _, _ => Option.none

/-- `value_fn` of the `estimated_value` sensor:
`round((est_curr_pct / 100.0) * full_capacity * propane_price_per_gallon, 2)`
when percentage, capacity, last delivery and its price are all present,
else `None`. -/
def estimated_value (tank : FerrellgasTankData) : Option ℚ :=
  match tank.est_curr_pct, tank.full_capacity, tank.last_delivery with
  | some p, some c, some d =>
    match d.propane_price_per_gallon with
    | some ppg => some (pyRound (p / 100 * c * ppg) 2)
    | Option.none => Option.none
  | _, _, _ => Option.none

/-- `value_fn` of the `gallons_used_since_fill` sensor:
`round(fill_capacity - (est_curr_pct / 100.0) * full_capacity, 1)` when
fill capacity, percentage and full capacity are present and
`fill_capacity >= (est_curr_pct / 100.0) * full_capacity`, else `None`. -/
def gallons_used_since_fill (tank : FerrellgasTankData) : Option ℚ :=
  match tank.fill_capacity, tank.est_curr_pct, tank.full_capacity with
  | some fc, some p, some c =>
    if p / 100 * c ≤ fc then some (pyRound (fc - p / 100 * c) 1) else Option.none
  | _, _, _ => Option.none

/-- `value_fn` of the `estimated_usage_cost` sensor:
`round((fill_capacity - (est_curr_pct / 100.0) * full_capacity) * propane_price_per_gallon, 2)`
under the same precondition as `gallons_used_since_fill` plus a present
last-delivery price, else `None`. -/
def estimated_usage_cost (tank : FerrellgasTankData) : Option ℚ :=
  match tank.fill_capacity, tank.est_curr_pct, tank.full_capacity,
      tank.last_delivery with
  | some fc, some p, some c, some d =>
    match d.propane_price_per_gallon with
    | some ppg =>
      if p / 100 * c ≤ fc then some (pyRound ((fc - p / 100 * c) * ppg) 2)
      else Option.none
    | Option.none => Option.none
  | _, _, _, _ => Option.none

/-! ## Enricher (`_async_get_last_delivery`) -/

/-- The sort key of the delivery sort:
`o.get("SOCompleteDate") or o.get("CreatedDate") or ""` rendered as the
string Python's `<` compares.  In the source the key is used verbatim; a
non-string truthy date value would make Python's sort raise `TypeError`,
which is outside the modelled domain — such values are rendered via
`pyStr` here only to keep the function total. -/
def delivery_sort_key (o : PyVal) : String :=
  match pyOr (pyGet o "SOCompleteDate") (pyOr (pyGet o "CreatedDate") (.str "")) with
  | .str s => s
  | v => pyStr v

/-- Executable strict lexicographic order on character lists, agreeing
with the `List Char` order underlying `String`'s `<` (Python's string
comparison is exactly this code-point lexicographic order). -/
def charListLt : List Char → List Char → Bool
  | [], [] => false
  | [], _ :: _ => true
  | _ :: _, [] => false
  | a :: as, b :: bs => if a < b then true else if b < a then false else charListLt as bs

/-- Executable `≤` on strings (`¬ b < a`), used so that concrete sort
runs reduce inside the kernel. -/
def stringLe (a b : String) : Bool := ! charListLt b.data a.data

/-- Stable insertion into a descending-by-key list: the inserted element
goes before the first strictly smaller key and before no equal key.
Together with `pySortDesc` this models Python's stable
`list.sort(key=sort_key, reverse=True)`. -/
def insertDesc (key : α → String) (a : α) : List α → List α
  | [] => [a]
  | b :: bs => if stringLe (key b) (key a) then a :: b :: bs else b :: insertDesc key a bs

/-- Stable descending sort by a string key, modelling
`list.sort(key=sort_key, reverse=True)` (Python's sort is stable, also
with `reverse=True`). -/
def pySortDesc (key : α → String) : List α → List α
  | [] => []
  | a :: as => insertDesc key a (pySortDesc key as)

/-- The earliest element of maximal key: the element a stable descending
sort puts first. -/
def firstMaxByKey (key : α → String) : List α → Option α
  | [] => Option.none
  | a :: as =>
    match firstMaxByKey key as with
    | Option.none => some a
    | some m => if stringLe (key m) (key a) then some a else some m

/-- The pure candidate-selection logic of `_async_get_last_delivery`,
applied to the decoded order list: filter to `Type == "D"` dict entries,
fall back to all dict entries when none match, sort stably by
`delivery_sort_key` descending, take the first, and return its
`str(latest.get("ID", ""))` unless that is empty. -/
def get_last_delivery_order_id (orders_raw : List PyVal) : Option String :=
  if orders_raw.isEmpty then Option.none
  else
    let delivery_orders :=
      orders_raw.filter (fun o => o.isDict && pyEqStr (pyGet o "Type") "D")
    let delivery_orders :=
      if delivery_orders.isEmpty then orders_raw.filter (fun o => o.isDict)
      else delivery_orders
    match pySortDesc delivery_sort_key delivery_orders with
    | [] => Option.none
    | latest :: _ =>
      let order_id := pyStr (pyGetD latest "ID" (.str ""))
      if order_id = "" then Option.none else some order_id

/-! ## Exception taxonomy -/

/-- The `FerrellgasApiError` hierarchy: `authentication` and `connection`
are subclasses of the base `api` error, so `except FerrellgasApiError`
catches all three. -/
inductive ApiFailure where
  | authentication (msg : String)
  | connection (msg : String)
  | api (msg : String)
deriving DecidableEq

/-! ## Authenticator (`_async_login`) -/

/-- The post-transport logic of `_async_login` applied to the decoded
login response: a falsy `success` raises `FerrellgasAuthenticationError`
with `str(response.get("error") or "Login failed")`; a missing, empty or
non-string `accessToken` raises `FerrellgasAuthenticationError` with the
fixed message; otherwise the token is returned.  Both failures are
reported as the error message of the raised `FerrellgasAuthenticationError`. -/
def login (response : PyVal) : Except String String :=
  if ¬ pyTruthy (pyGet response "success") then
    .error (pyStr (pyOr (pyGet response "error") (.str "Login failed")))
  else
    match pyGet response "accessToken" with
    | .str s => if s = "" then .error "Login succeeded but access token missing" else .ok s
    | _ => .error "Login succeeded but access token missing"

/-! ## Transport (`_async_handle_response`, `_async_get_list`) -/

/-- Outcome of `aiohttp.ClientResponse.json(content_type=None)`: either a
decoded `PyVal`, or a `json.JSONDecodeError` from `json.loads` on a
non-JSON body.  With `content_type=None` aiohttp skips its content-type
check, so `aiohttp.ContentTypeError` is never raised, and
`json.JSONDecodeError` (a `ValueError`, neither an
`aiohttp.ContentTypeError` nor an `aiohttp.ClientError`) propagates. -/
inductive JsonBody where
  | ok (v : PyVal)
  | decodeError (msg : String)

/-- An HTTP response as the transport sees it: status code, body text,
and the outcome of JSON-decoding the body. -/
structure HttpResponse where
  status : ℕ
  bodyText : String
  jsonBody : JsonBody

/-- How a transport call terminates: a raised member of the
`FerrellgasApiError` family, or an escaping `json.JSONDecodeError`
(caught by none of the `except` clauses in `api.py`). -/
inductive TransportExc where
  | ferrellgas (e : ApiFailure)
  | jsonDecode (msg : String)
deriving DecidableEq

/-- `_async_handle_response`: 401/403 → `FerrellgasAuthenticationError`
(checked before the generic `>= 400` branch); other `>= 400` →
`FerrellgasApiError` with status and body text; then the body is decoded —
a `json.JSONDecodeError` escapes (the `except aiohttp.ContentTypeError`
clause is unreachable with `content_type=None`); a decoded non-dict →
`FerrellgasApiError`. -/
def handle_response (r : HttpResponse) : Except TransportExc PyVal :=
  if r.status = 401 ∨ r.status = 403 then
    .error (.ferrellgas (.authentication ("Authentication error: HTTP " ++ toString r.status)))
  else if 400 ≤ r.status then
    .error (.ferrellgas (.api ("API request failed: HTTP " ++ toString r.status ++ " - " ++ r.bodyText)))
  else
    match r.jsonBody with
    | .decodeError m => .error (.jsonDecode m)
    | .ok d =>
      if d.isDict then .ok d
      else .error (.ferrellgas (.api "API returned unexpected payload type"))

/-- `_async_get_list`: same status classification as
`_async_handle_response`, then a decoded list is returned as is, a bare
dict is wrapped as a one-element list, and any other decoded value
degrades to the empty list; a `json.JSONDecodeError` escapes here too. -/
def get_list (r : HttpResponse) : Except TransportExc (List PyVal) :=
  if r.status = 401 ∨ r.status = 403 then
    .error (.ferrellgas (.authentication ("Authentication error: HTTP " ++ toString r.status)))
  else if 400 ≤ r.status then
    .error (.ferrellgas (.api ("API request failed: HTTP " ++ toString r.status ++ " - " ++ r.bodyText)))
  else
    match r.jsonBody with
    | .decodeError m => .error (.jsonDecode m)
    | .ok (.list xs) => .ok xs
    | .ok (.dict kvs) => .ok [.dict kvs]
    | .ok _ => .ok []

/-! ## Enrichment loop (`async_get_account_summary`, lines 129–141) -/

/-- The per-tank enrichment loop: tanks are processed in order, each
tank's `_async_get_last_delivery` call abstracted by an oracle from the
tank's `installed_product_id` whose outcome is a result, a raised
member of the `FerrellgasApiError` family, or an escaping
`json.JSONDecodeError` (the outcome `handle_response` / `get_list` can
produce on a non-JSON body).  Only the `FerrellgasApiError` family is
caught by the loop's `except FerrellgasApiError` (logged, tank kept
with `last_delivery` untouched); a `json.JSONDecodeError` propagates
out of the loop, aborting the whole account refresh with no snapshot
returned. -/
def enrichTanks
    (fetch : String → Except TransportExc (Option FerrellgasOrderDetail)) :
    List FerrellgasTankData → Except TransportExc (List FerrellgasTankData)
  | [] => .ok []
  | tank :: rest =>
    match fetch tank.installed_product_id with
    | .ok d => (enrichTanks fetch rest).map
        (fun ts => { tank with last_delivery := d } :: ts)
    | .error (.ferrellgas _) => (enrichTanks fetch rest).map (fun ts => tank :: ts)
    | .error (.jsonDecode m) => .error (.jsonDecode m)

/-! ## Parser — order detail (`_parse_order_detail`) -/

/-- The mutable state of the line-item loop in `_parse_order_detail`. -/
structure LineAcc where
  lines : List FerrellgasOrderLine
  propane_gallons : Option ℚ
  propane_ppg : Option ℚ
  propane_subtotal : Option ℚ
  fuel_surcharge : Option ℚ
  hazmat_fee : Option ℚ
deriving DecidableEq

/-- The `FerrellgasOrderLine` built from one raw dict line:
`str(raw_line.get(...) or "")` for the text fields and
`_to_float(raw_line.get(...)) or 0.0` for the numeric ones. -/
def order_line_of (raw_line : PyVal) : FerrellgasOrderLine :=
  { product := pyStr (pyOr (pyGet raw_line "Product") (.str ""))
    quantity := (to_float (pyGet raw_line "Quantity")).getD 0
    unit_of_measure := pyStr (pyOr (pyGet raw_line "UOM") (.str ""))
    unit_price := (to_float (pyGet raw_line "UnitPrice")).getD 0
    total_price := (to_float (pyGet raw_line "TotalPrice")).getD 0 }

/-- One iteration of the line-item loop: non-dict lines are skipped; each
dict line is appended to `lines`; a `"PROPANE"` product overwrites the
propane triple, `"FUEL_SURCHARGE"` and `"HAZMAT_FEE"` their fee fields. -/
def order_line_step (acc : LineAcc) (raw_line : PyVal) : LineAcc :=
  match raw_line with
  | .dict _ =>
    let line := order_line_of raw_line
    let acc := { acc with lines := acc.lines ++ [line] }
    if line.product = "PROPANE" then
      { acc with propane_gallons := some line.quantity,
                 propane_ppg := some line.unit_price,
                 propane_subtotal := some line.total_price }
    else if line.product = "FUEL_SURCHARGE" then
      { acc with fuel_surcharge := some line.total_price }
    else if line.product = "HAZMAT_FEE" then
      { acc with hazmat_fee := some line.total_price }
    else acc
  | _ => acc

/-- `_parse_order_detail`: builds a `FerrellgasOrderDetail` from the
detail payload and the order's summary-list entry.  `_to_float(x) or 0.0`
coincides with defaulting the absent (and the zero) case to `0`. -/
def parse_order_detail (pd : String → Option DT) (detail summary : PyVal) :
    FerrellgasOrderDetail :=
  let order_id := pyStr (pyOr (pyGet detail "OrderNumber") (pyGetD summary "ID" (.str "")))
  let order_date := parse_datetime pd (pyGet detail "OrderCreatedDate")
  let complete_date :=
    parse_datetime pd (pyOr (pyGet detail "CompleteDate") (pyGet summary "SOCompleteDate"))
  let status :=
    pyStr (pyOr (pyGet detail "OrderStatusDescription") (pyOr (pyGet detail "OrderStatus") (.str "")))
  let service_desc := pyStr (pyOr (pyGet summary "ServiceDescription") (.str ""))
  let grand_total := (to_float (pyGet detail "GrandTotal")).getD 0
  let total_tax := (to_float (pyGet detail "TotalTax")).getD 0
  let acc : LineAcc :=
    match pyGetD detail "Lines" (.list []) with
    | .list raw_lines =>
      raw_lines.foldl order_line_step
        ⟨[], Option.none, Option.none, Option.none, Option.none, Option.none⟩
    | _ => ⟨[], Option.none, Option.none, Option.none, Option.none, Option.none⟩
  { order_id := order_id
    order_date := order_date
    complete_date := complete_date
    status := status
    service_description := service_desc
    grand_total := grand_total
    total_tax := total_tax
    propane_gallons := acc.propane_gallons
    propane_price_per_gallon := acc.propane_ppg
    propane_subtotal := acc.propane_subtotal
    fuel_surcharge := acc.fuel_surcharge
    hazmat_fee := acc.hazmat_fee
    lines := acc.lines }

/-! ## Parser — account summary (`_parse_account_summary`) -/

/-- The provider-supplied tank identity: `tank.get("InstalledProductId")`
when it is a nonempty string (`isinstance(installed_product_id, str) and
installed_product_id`), else absent. -/
def provider_id (tank : PyVal) : Option String :=
  match pyGet tank "InstalledProductId" with
  | .str s => if s = "" then Option.none else some s
  | _ => Option.none

/-- The tank identity `_parse_account_summary` assigns: the provider id
when valid, else the synthesized `f"{site_id}_{tank_index}"`. -/
def tank_id_of (site_id : String) (tank_index : ℕ) (tank : PyVal) : String :=
  (provider_id tank).getD (site_id ++ "_" ++ toString tank_index)

/-- The body of the inner tank loop: non-dict entries are skipped
(`continue`); for a dict, `InstalledProductId` falls back to
`"{site_id}_{tank_index}"` when missing, empty or non-string, and the
optional fields degrade to absent via `_to_float` / `_parse_datetime`. -/
def parse_tank (pd : String → Option DT) (site_id site_name : String)
    (tank_index : ℕ) (tank : PyVal) : Option FerrellgasTankData :=
  match tank with
  | .dict _ =>
    let installed_product_id := tank_id_of site_id tank_index tank
    let product_description := pyStr (pyOr (pyGet tank "ProductDescription") (.str "Ferrellgas Tank"))
    let product_id : Option String :=
      match pyGet tank "ProductId" with
      | .none => Option.none
      | .str s => some s
      | v => some (pyStr v)
    some
      { installed_product_id := installed_product_id
        site_id := site_id
        site_name := site_name
        product_description := product_description
        product_id := product_id
        full_capacity := to_float (pyGet tank "FullCapacity")
        fill_capacity := to_float (pyGet tank "FillCapacity")
        est_curr_pct := to_float (pyGet tank "EstCurrPct")
        estimated_percentage_date := parse_datetime pd (pyGet tank "EstimatedPercentageDate")
        last_delivery := Option.none }
  | _ => Option.none

/-- The computed site id of the outer loop:
`str(site.get("SiteId") or f"site_{site_index}")`. -/
def site_id_of (site_index : ℕ) (site : PyVal) : String :=
  pyStr (pyOr (pyGet site "SiteId") (.str ("site_" ++ toString site_index)))

/-- The body of the outer site loop: non-dict sites are skipped, as are
sites whose `IPSummary` is not a list (`continue`, contributing no
tanks); otherwise the tank loop runs over the enumerated tank list. -/
def parse_site (pd : String → Option DT) (site_index : ℕ) (site : PyVal) :
    List FerrellgasTankData :=
  match site with
  | .dict _ =>
    let site_id := site_id_of site_index site
    let site_name :=
      pyStr (pyOr (pyGet site "SiteName") (pyOr (pyGet site "Address1") (.str site_id)))
    match pyGetD site "IPSummary" (.list []) with
    | .list ip_summary =>
      ip_summary.enum.filterMap (fun p => parse_tank pd site_id site_name p.1 p.2)
    | _ => []
  | _ => []

/-- `_parse_account_summary`: balance only from a dict
`FinancialSummary` whose `Balance` passes the numeric `isinstance`
check (the check `_to_float` embodies); account name falls back to the
account id; a non-list `SiteSummary` degrades to the empty list; tanks
come from the enumerated site loop. -/
def parse_account_summary (pd : String → Option DT) (account_id : String)
    (payload : PyVal) : FerrellgasAccountData :=
  let balance : Option ℚ :=
    match pyGet payload "FinancialSummary" with
    | .dict kvs => to_float (pyGet (.dict kvs) "Balance")
    | _ => Option.none
  let account_name := pyStr (pyGetD payload "Name" (.str account_id))
  let tanks : List FerrellgasTankData :=
    match pyGetD payload "SiteSummary" (.list []) with
    | .list sites => (sites.enum.map (fun p => parse_site pd p.1 p.2)).flatten
    | _ => []
  { account_id := account_id
    account_name := account_name
    balance := balance
    tanks := tanks }

/-- `async_get_account_summary` after transport: parse the account
summary payload, then run the per-tank enrichment loop; an exception
the loop does not catch aborts the whole call. -/
def async_get_account_summary (pd : String → Option DT) (account_id : String)
    (payload : PyVal)
    (fetch : String → Except TransportExc (Option FerrellgasOrderDetail)) :
    Except TransportExc FerrellgasAccountData :=
  let account_data := parse_account_summary pd account_id payload
  (enrichTanks fetch account_data.tanks).map
    (fun ts => { account_data with tanks := ts })

/-! ## Claim C1 — derived tank metrics -/

/-- Claim C1: for every tank snapshot, each derived metric is present iff
its validity precondition holds, and when present equals its table
formula with the documented rounding: estimated gallons is
`percent/100 * full_capacity` rounded to 1 decimal; estimated dollar
value is `percent/100 * full_capacity * price_per_gallon` rounded to 2
decimals; gallons used since fill is
`fill_capacity - percent/100 * full_capacity` rounded to 1 decimal,
requiring `fill_capacity ≥ percent/100 * full_capacity`; usage cost
since fill is the (unrounded) usage gallons times `price_per_gallon`
rounded to 2 decimals.  When a precondition is unmet the result is
absent. -/
theorem spec_C1 (tank : FerrellgasTankData) :
    ((estimated_gallons tank).isSome ↔
        tank.est_curr_pct.isSome ∧ tank.full_capacity.isSome)
    ∧ (∀ p c, tank.est_curr_pct = some p → tank.full_capacity = some c →
        estimated_gallons tank = some (pyRound (p / 100 * c) 1))
    ∧ ((estimated_value tank).isSome ↔
        tank.est_curr_pct.isSome ∧ tank.full_capacity.isSome ∧
        ∃ d, tank.last_delivery = some d ∧ d.propane_price_per_gallon.isSome)
    ∧ (∀ p c d ppg, tank.est_curr_pct = some p → tank.full_capacity = some c →
        tank.last_delivery = some d → d.propane_price_per_gallon = some ppg →
        estimated_value tank = some (pyRound (p / 100 * c * ppg) 2))
    ∧ ((gallons_used_since_fill tank).isSome ↔
        ∃ fc p c, tank.fill_capacity = some fc ∧ tank.est_curr_pct = some p ∧
          tank.full_capacity = some c ∧ p / 100 * c ≤ fc)
    ∧ (∀ fc p c, tank.fill_capacity = some fc → tank.est_curr_pct = some p →
        tank.full_capacity = some c → p / 100 * c ≤ fc →
        gallons_used_since_fill tank = some (pyRound (fc - p / 100 * c) 1))
    ∧ (∀ fc p c, tank.fill_capacity = some fc → tank.est_curr_pct = some p →
        tank.full_capacity = some c → ¬ p / 100 * c ≤ fc →
        gallons_used_since_fill tank = Option.none)
    ∧ ((estimated_usage_cost tank).isSome ↔
        (∃ fc p c, tank.fill_capacity = some fc ∧ tank.est_curr_pct = some p ∧
          tank.full_capacity = some c ∧ p / 100 * c ≤ fc) ∧
        ∃ d, tank.last_delivery = some d ∧ d.propane_price_per_gallon.isSome)
    ∧ (∀ fc p c d ppg, tank.fill_capacity = some fc → tank.est_curr_pct = some p →
        tank.full_capacity = some c → tank.last_delivery = some d →
        d.propane_price_per_gallon = some ppg → p / 100 * c ≤ fc →
        estimated_usage_cost tank = some (pyRound ((fc - p / 100 * c) * ppg) 2)) := by
  obtain ⟨id, sid, sname, pdesc, pid, full, fill, pct, edate, ld⟩ := tank
  refine ⟨?_, ?_, ?_, ?_, ?_, ?_, ?_, ?_, ?_⟩
  · cases pct <;> cases full <;>
      simp [estimated_gallons]
  · intro p c hp hc
    cases hp; cases hc; simp [estimated_gallons]
  · cases pct <;> cases full <;> cases ld <;>
      simp [estimated_value]
    rename_i d
    cases h : d.propane_price_per_gallon <;> simp [h]
  · intro p c d ppg hp hc hd hppg
    cases hp; cases hc; cases hd; simp [estimated_value, hppg]
  · cases fill <;> cases pct <;> cases full <;>
      simp [gallons_used_since_fill]
  · intro fc p c hfc hp hc hle
    cases hfc; cases hp; cases hc; simp [gallons_used_since_fill, hle]
  · intro fc p c hfc hp hc hle
    cases hfc; cases hp; cases hc; simp [gallons_used_since_fill, hle]
  · cases fill <;> cases pct <;> cases full <;> cases ld <;>
      simp [estimated_usage_cost]
    rename_i fc p c d
    cases h : d.propane_price_per_gallon <;>
      by_cases hle : p / 100 * c ≤ fc <;>
        simp [h, hle]
  · intro fc p c d ppg hfc hp hc hd hppg hle
    cases hfc; cases hp; cases hc; cases hd
    simp [estimated_usage_cost, hppg, hle]

/-- Witness for `spec_C1` at the spec's concrete examples:
`percent=40`, `full_capacity=500` gives estimated gallons `200.0`;
adding `price_per_gallon=2.50` gives estimated value `500.00`;
`fill_capacity=450` gives usage `250.0` and usage cost `625.00`; with
`fill_capacity=100 < 200` the usage metric is absent. -/
theorem spec_C1_witness :
    (estimated_gallons
      { installed_product_id := "T1", site_id := "S1", site_name := "Home",
        product_description := "Tank", product_id := Option.none,
        full_capacity := some 500, fill_capacity := some 450,
        est_curr_pct := some 40, estimated_percentage_date := Option.none,
        last_delivery := some
          { order_id := "O1", order_date := Option.none, complete_date := Option.none,
            status := "", service_description := "", grand_total := 0, total_tax := 0,
            propane_gallons := Option.none, propane_price_per_gallon := some (5/2),
            propane_subtotal := Option.none, fuel_surcharge := Option.none,
            hazmat_fee := Option.none, lines := [] } } = some 200)
    ∧ (estimated_value
      { installed_product_id := "T1", site_id := "S1", site_name := "Home",
        product_description := "Tank", product_id := Option.none,
        full_capacity := some 500, fill_capacity := some 450,
        est_curr_pct := some 40, estimated_percentage_date := Option.none,
        last_delivery := some
          { order_id := "O1", order_date := Option.none, complete_date := Option.none,
            status := "", service_description := "", grand_total := 0, total_tax := 0,
            propane_gallons := Option.none, propane_price_per_gallon := some (5/2),
            propane_subtotal := Option.none, fuel_surcharge := Option.none,
            hazmat_fee := Option.none, lines := [] } } = some 500)
    ∧ (gallons_used_since_fill
      { installed_product_id := "T1", site_id := "S1", site_name := "Home",
        product_description := "Tank", product_id := Option.none,
        full_capacity := some 500, fill_capacity := some 450,
        est_curr_pct := some 40, estimated_percentage_date := Option.none,
        last_delivery := Option.none } = some 250)
    ∧ (gallons_used_since_fill
      { installed_product_id := "T1", site_id := "S1", site_name := "Home",
        product_description := "Tank", product_id := Option.none,
        full_capacity := some 500, fill_capacity := some 100,
        est_curr_pct := some 40, estimated_percentage_date := Option.none,
        last_delivery := Option.none } = Option.none) := by
  refine ⟨?_, ?_, ?_, ?_⟩
  · rw [(spec_C1 _).2.1 40 500 rfl rfl]
    norm_num [pyRound]
  · rw [(spec_C1 _).2.2.2.1 40 500 _ (5/2) rfl rfl rfl rfl]
    norm_num [pyRound]
  · rw [(spec_C1 _).2.2.2.2.2.1 450 40 500 rfl rfl rfl (by norm_num)]
    norm_num [pyRound]
  · exact (spec_C1 _).2.2.2.2.2.2.1 100 40 500 rfl rfl rfl (by norm_num)

/-! ## Claim C2 — last-delivery selection -/

theorem charListLt_iff (as bs : List Char) :
    charListLt as bs = true ↔ List.Lex (fun c d => c < d) as bs := by
  induction as generalizing bs with
  | nil =>
    cases bs with
    | nil =>
      simp only [charListLt, Bool.false_eq_true, false_iff]
      intro h; cases h
    | cons b bs =>
      simp only [charListLt, true_iff]
      exact List.Lex.nil
  | cons a as ih =>
    cases bs with
    | nil =>
      simp only [charListLt, Bool.false_eq_true, false_iff]
      intro h; cases h
    | cons b bs =>
      simp only [charListLt]
      by_cases hab : a < b
      · simp only [if_pos hab, true_iff]
        exact List.Lex.rel hab
      · by_cases hba : b < a
        · simp only [if_neg hab, if_pos hba, Bool.false_eq_true, false_iff]
          intro h
          cases h with
          | cons h => exact lt_irrefl _ hba
          | rel h => exact hab h
        · have heq : a = b := le_antisymm (le_of_not_lt hba) (le_of_not_lt hab)
          subst heq
          simp only [if_neg hab, if_neg hba, ih bs]
          constructor
          · exact fun h => List.Lex.cons h
          · intro h
            cases h with
            | cons h => exact h
            | rel h => exact absurd h hab

theorem stringLe_iff (a b : String) : stringLe a b = true ↔ a ≤ b := by
  have h1 : (a ≤ b) ↔ ¬ (b < a) := Iff.rfl
  rw [h1, String.lt_iff_toList_lt]
  show stringLe a b = true ↔ ¬ List.Lex (fun c d => c < d) b.data a.data
  rw [← charListLt_iff]
  cases h : charListLt b.data a.data <;> simp [stringLe, h]

theorem stringLe_false (a b : String) (h : ¬ stringLe a b = true) : b ≤ a := by
  rcases le_total a b with hab | hba
  · exact absurd ((stringLe_iff a b).2 hab) h
  · exact hba

theorem insertDesc_perm (key : α → String) (a : α) (l : List α) :
    (insertDesc key a l).Perm (a :: l) := by
  induction l with
  | nil => simp [insertDesc]
  | cons b bs ih =>
    simp only [insertDesc]
    split
    · exact List.Perm.refl _
    · exact (ih.cons b).trans (List.Perm.swap a b bs)

theorem pySortDesc_perm (key : α → String) (l : List α) :
    (pySortDesc key l).Perm l := by
  induction l with
  | nil => exact List.Perm.nil
  | cons a as ih => exact (insertDesc_perm key a _).trans (ih.cons a)

theorem insertDesc_pairwise (key : α → String) (a : α) (l : List α)
    (h : l.Pairwise (fun x y => key y ≤ key x)) :
    (insertDesc key a l).Pairwise (fun x y => key y ≤ key x) := by
  induction l with
  | nil => simp [insertDesc]
  | cons b bs ih =>
    rcases List.pairwise_cons.1 h with ⟨hb, hbs⟩
    simp only [insertDesc]
    by_cases hcond : stringLe (key b) (key a) = true
    · rw [if_pos hcond]
      have hba : key b ≤ key a := (stringLe_iff _ _).1 hcond
      refine List.pairwise_cons.2 ⟨?_, h⟩
      intro y hy
      rcases List.mem_cons.1 hy with rfl | hy
      · exact hba
      · exact le_trans (hb y hy) hba
    · rw [if_neg hcond]
      have hab : key a ≤ key b := stringLe_false _ _ hcond
      refine List.pairwise_cons.2 ⟨?_, ih hbs⟩
      intro y hy
      rcases List.mem_cons.1 ((insertDesc_perm key a bs).mem_iff.1 hy) with rfl | hy
      · exact hab
      · exact hb y hy

theorem pySortDesc_pairwise (key : α → String) (l : List α) :
    (pySortDesc key l).Pairwise (fun x y => key y ≤ key x) := by
  induction l with
  | nil => simp [pySortDesc]
  | cons a as ih => exact insertDesc_pairwise key a _ ih

theorem firstMaxByKey_eq_none (key : α → String) (l : List α) :
    firstMaxByKey key l = Option.none ↔ l = [] := by
  cases l with
  | nil => simp [firstMaxByKey]
  | cons a as =>
    simp only [firstMaxByKey]
    cases firstMaxByKey key as with
    | none => simp
    | some m =>
      by_cases h : stringLe (key m) (key a) = true <;> simp [h]

theorem pySortDesc_head? (key : α → String) (l : List α) :
    (pySortDesc key l).head? = firstMaxByKey key l := by
  induction l with
  | nil => rfl
  | cons a as ih =>
    simp only [pySortDesc, firstMaxByKey]
    cases hs : pySortDesc key as with
    | nil =>
      rw [hs] at ih
      rw [← ih]
      simp [insertDesc]
    | cons b bs =>
      rw [hs] at ih
      rw [← ih]
      simp only [List.head?]
      simp only [insertDesc]
      by_cases h : stringLe (key b) (key a) = true <;> simp [h]

theorem firstMaxByKey_spec (key : α → String) (l : List α) (m : α)
    (h : firstMaxByKey key l = some m) :
    m ∈ l ∧ ∀ x ∈ l, key x ≤ key m := by
  induction l generalizing m with
  | nil => cases h
  | cons a as ih =>
    cases has : firstMaxByKey key as with
    | none =>
      have hnil : as = [] := (firstMaxByKey_eq_none key as).1 has
      subst hnil
      simp only [firstMaxByKey] at h
      cases h
      simp
    | some mm =>
      have hun : firstMaxByKey key (a :: as) =
          if stringLe (key mm) (key a) = true then some a else some mm := by
        simp [firstMaxByKey, has]
      rw [hun] at h
      obtain ⟨hmem, hmax⟩ := ih mm has
      by_cases hc : stringLe (key mm) (key a) = true
      · rw [if_pos hc] at h
        cases h
        refine ⟨List.mem_cons_self a as, ?_⟩
        intro x hx
        rcases List.mem_cons.1 hx with rfl | hx
        · exact le_refl _
        · exact le_trans (hmax x hx) ((stringLe_iff _ _).1 hc)
      · rw [if_neg hc] at h
        cases h
        refine ⟨List.mem_cons_of_mem a hmem, ?_⟩
        intro x hx
        rcases List.mem_cons.1 hx with rfl | hx
        · exact stringLe_false _ _ hc
        · exact hmax x hx

/-- The selection made by `_async_get_last_delivery`, reformulated in
terms of `firstMaxByKey` (the element a stable descending sort puts
first).  The early `if not orders_raw: return None` agrees with the
general case, where the candidate set is then also empty. -/
theorem get_last_delivery_order_id_eq (orders_raw : List PyVal) :
    get_last_delivery_order_id orders_raw =
      Option.bind
        (firstMaxByKey delivery_sort_key
          (if (orders_raw.filter
                (fun o => o.isDict && pyEqStr (pyGet o "Type") "D")).isEmpty
           then orders_raw.filter (fun o => o.isDict)
           else orders_raw.filter
                (fun o => o.isDict && pyEqStr (pyGet o "Type") "D")))
        (fun latest =>
          if pyStr (pyGetD latest "ID" (.str "")) = "" then Option.none
          else some (pyStr (pyGetD latest "ID" (.str "")))) := by
  cases orders_raw with
  | nil => rfl
  | cons o os =>
    simp only [get_last_delivery_order_id, List.isEmpty_cons, Bool.false_eq_true,
      if_false]
    have hhead := pySortDesc_head? delivery_sort_key
      (if ((o :: os).filter
            (fun o => o.isDict && pyEqStr (pyGet o "Type") "D")).isEmpty
       then (o :: os).filter (fun o => o.isDict)
       else (o :: os).filter (fun o => o.isDict && pyEqStr (pyGet o "Type") "D"))
    cases hs : pySortDesc delivery_sort_key
      (if ((o :: os).filter
            (fun o => o.isDict && pyEqStr (pyGet o "Type") "D")).isEmpty
       then (o :: os).filter (fun o => o.isDict)
       else (o :: os).filter (fun o => o.isDict && pyEqStr (pyGet o "Type") "D")) with
    | nil =>
      rw [hs] at hhead
      rw [← hhead]
      rfl
    | cons latest rest =>
      rw [hs] at hhead
      rw [← hhead]
      rfl

/-- Claim C2: for every order list, the selection filters to entries
whose `Type` is `"D"`, falls back to every (dict) entry when none match,
sorts candidates stably descending by the completion-date string with
the creation-date string as secondary source (a lexicographic string
sort: the last conjunct shows `"2024-9-01"` outsorting the
chronologically later `"2024-10-02"`), takes the first candidate, and
returns absent when it lacks an order identifier; an empty list yields
absent. -/
theorem spec_C2 (orders_raw cands : List PyVal)
    (hc : cands =
      if (orders_raw.filter
            (fun o => o.isDict && pyEqStr (pyGet o "Type") "D")).isEmpty
      then orders_raw.filter (fun o => o.isDict)
      else orders_raw.filter (fun o => o.isDict && pyEqStr (pyGet o "Type") "D")) :
    (get_last_delivery_order_id [] = Option.none)
    ∧ (pySortDesc delivery_sort_key cands).Perm cands
    ∧ (pySortDesc delivery_sort_key cands).Pairwise
        (fun a b => delivery_sort_key b ≤ delivery_sort_key a)
    ∧ (pySortDesc delivery_sort_key cands).head? = firstMaxByKey delivery_sort_key cands
    ∧ (get_last_delivery_order_id orders_raw = Option.none ↔
        cands = [] ∨ ∃ m, firstMaxByKey delivery_sort_key cands = some m ∧
          pyStr (pyGetD m "ID" (.str "")) = "")
    ∧ (∀ oid, get_last_delivery_order_id orders_raw = some oid →
        ∃ m, m ∈ cands ∧ oid = pyStr (pyGetD m "ID" (.str "")) ∧ oid ≠ "" ∧
          ∀ x ∈ cands, delivery_sort_key x ≤ delivery_sort_key m)
    ∧ (get_last_delivery_order_id
        [.dict [("Type", .str "D"), ("SOCompleteDate", .str "2024-10-02"),
                ("ID", .str "OCT")],
         .dict [("Type", .str "D"), ("SOCompleteDate", .str "2024-9-01"),
                ("ID", .str "SEP")]] = some "SEP") := by
  subst hc
  refine ⟨rfl, pySortDesc_perm _ _, pySortDesc_pairwise _ _, pySortDesc_head? _ _,
    ?_, ?_, by decide⟩
  · rw [get_last_delivery_order_id_eq]
    cases hf : firstMaxByKey delivery_sort_key
      (if (orders_raw.filter
            (fun o => o.isDict && pyEqStr (pyGet o "Type") "D")).isEmpty
       then orders_raw.filter (fun o => o.isDict)
       else orders_raw.filter (fun o => o.isDict && pyEqStr (pyGet o "Type") "D")) with
    | none =>
      constructor
      · intro _
        exact Or.inl ((firstMaxByKey_eq_none _ _).1 hf)
      · intro _
        rfl
    | some m =>
      by_cases hid : pyStr (pyGetD m "ID" (.str "")) = ""
      · constructor
        · intro _
          exact Or.inr ⟨m, rfl, hid⟩
        · intro _
          dsimp only [Option.bind]
          rw [if_pos hid]
      · constructor
        · intro h
          dsimp only [Option.bind] at h
          rw [if_neg hid] at h
          cases h
        · rintro (hnil | ⟨m', hm', hid'⟩)
          · rw [hnil] at hf
            simp [firstMaxByKey] at hf
          · cases hm'
            exact absurd hid' hid
  · intro oid h
    rw [get_last_delivery_order_id_eq] at h
    cases hf : firstMaxByKey delivery_sort_key
      (if (orders_raw.filter
            (fun o => o.isDict && pyEqStr (pyGet o "Type") "D")).isEmpty
       then orders_raw.filter (fun o => o.isDict)
       else orders_raw.filter (fun o => o.isDict && pyEqStr (pyGet o "Type") "D")) with
    | none =>
      rw [hf] at h
      cases h
    | some m =>
      rw [hf] at h
      dsimp only [Option.bind] at h
      by_cases hid : pyStr (pyGetD m "ID" (.str "")) = ""
      · rw [if_pos hid] at h
        cases h
      · rw [if_neg hid] at h
        cases h
        obtain ⟨hmem, hmax⟩ := firstMaxByKey_spec _ _ _ hf
        exact ⟨m, hmem, rfl, hid, hmax⟩

/-- Witness for `spec_C2`: a singleton order list without a `Type`
marker falls back to the single dict entry, which is maximal and
supplies the returned id `"X1"`. -/
theorem spec_C2_witness :
    ∃ m, m ∈ [PyVal.dict [("ID", .str "X1")]] ∧
      "X1" = pyStr (pyGetD m "ID" (.str "")) ∧ "X1" ≠ "" ∧
      ∀ x ∈ [PyVal.dict [("ID", .str "X1")]],
        delivery_sort_key x ≤ delivery_sort_key m :=
  (spec_C2 [PyVal.dict [("ID", .str "X1")]] [PyVal.dict [("ID", .str "X1")]]
    rfl).2.2.2.2.2.1 "X1" rfl

/-! ## Claim C3 — per-tank enrichment failure isolation -/

theorem parse_tank_last_delivery (pd : String → Option DT)
    (site_id site_name : String) (j : ℕ) (tank : PyVal) (t : FerrellgasTankData)
    (h : parse_tank pd site_id site_name j tank = some t) :
    t.last_delivery = Option.none := by
  cases tank
  case dict kvs =>
    simp only [parse_tank] at h
    cases h
    rfl
  all_goals cases h

theorem parse_site_last_delivery (pd : String → Option DT) (i : ℕ)
    (site : PyVal) (t : FerrellgasTankData) (h : t ∈ parse_site pd i site) :
    t.last_delivery = Option.none := by
  cases site
  case dict kvs =>
    simp only [parse_site] at h
    cases hip : pyGetD (.dict kvs) "IPSummary" (.list []) <;> rw [hip] at h
    case list ts =>
      rcases List.mem_filterMap.1 h with ⟨p, hp, hpt⟩
      exact parse_tank_last_delivery _ _ _ _ _ _ hpt
    all_goals exact absurd h (List.not_mem_nil t)
  all_goals simp [parse_site] at h

theorem parse_account_summary_last_delivery (pd : String → Option DT)
    (account_id : String) (payload : PyVal) (t : FerrellgasTankData)
    (h : t ∈ (parse_account_summary pd account_id payload).tanks) :
    t.last_delivery = Option.none := by
  simp only [parse_account_summary] at h
  cases hss : pyGetD payload "SiteSummary" (.list []) <;> rw [hss] at h
  case list sites =>
    rcases List.mem_flatten.1 h with ⟨l, hl, htl⟩
    rcases List.mem_map.1 hl with ⟨p, hp, rfl⟩
    exact parse_site_last_delivery _ _ _ _ htl
  all_goals exact absurd h (List.not_mem_nil t)

theorem enrichTanks_eq_map
    (fetch : String → Except TransportExc (Option FerrellgasOrderDetail))
    (tanks : List FerrellgasTankData)
    (h : ∀ t ∈ tanks, ∀ m, fetch t.installed_product_id ≠ .error (.jsonDecode m)) :
    enrichTanks fetch tanks = .ok (tanks.map (fun tank =>
      match fetch tank.installed_product_id with
      | .ok d => { tank with last_delivery := d }
      | .error _ => tank)) := by
  induction tanks with
  | nil => rfl
  | cons tank rest ih =>
    rw [enrichTanks]
    have hrest := ih (fun t ht m => h t (List.mem_cons_of_mem tank ht) m)
    cases hf : fetch tank.installed_product_id with
    | ok d =>
      rw [hrest]
      simp [hf, Except.map]
    | error e =>
      cases e with
      | ferrellgas a =>
        rw [hrest]
        simp [hf, Except.map]
      | jsonDecode m => exact absurd hf (h tank (List.mem_cons_self tank rest) m)

theorem enrichTanks_ok_inv
    (fetch : String → Except TransportExc (Option FerrellgasOrderDetail))
    (tanks : List FerrellgasTankData) (ts : List FerrellgasTankData)
    (h : enrichTanks fetch tanks = .ok ts) :
    ts = tanks.map (fun tank =>
      match fetch tank.installed_product_id with
      | .ok d => { tank with last_delivery := d }
      | .error _ => tank) := by
  induction tanks generalizing ts with
  | nil =>
    rw [enrichTanks] at h
    cases h
    rfl
  | cons tank rest ih =>
    rw [enrichTanks] at h
    cases hf : fetch tank.installed_product_id <;> rw [hf] at h
    case ok d =>
      cases henr : enrichTanks fetch rest <;> rw [henr] at h
      case ok ts0 =>
        cases h
        simp [hf, ih ts0 henr]
      case error e => cases h
    case error e =>
      cases e with
      | ferrellgas a =>
        cases henr : enrichTanks fetch rest <;> rw [henr] at h
        case ok ts0 =>
          cases h
          simp [hf, ih ts0 henr]
        case error e2 => cases h
      | jsonDecode m => cases h

theorem enrichTanks_aborts
    (fetch : String → Except TransportExc (Option FerrellgasOrderDetail))
    (before_tanks rest : List FerrellgasTankData) (tank : FerrellgasTankData)
    (m : String)
    (h : ∀ t ∈ before_tanks, ∀ m', fetch t.installed_product_id ≠
      .error (.jsonDecode m'))
    (hf : fetch tank.installed_product_id = .error (.jsonDecode m)) :
    enrichTanks fetch (before_tanks ++ tank :: rest) =
      .error (.jsonDecode m) := by
  induction before_tanks with
  | nil =>
    rw [List.nil_append, enrichTanks, hf]
  | cons t ts ih =>
    rw [List.cons_append, enrichTanks]
    have hrest := ih (fun t2 ht2 m2 => h t2 (List.mem_cons_of_mem t ht2) m2)
    cases hft : fetch t.installed_product_id with
    | ok d =>
      rw [hrest]
      rfl
    | error e =>
      cases e with
      | ferrellgas a =>
        rw [hrest]
        rfl
      | jsonDecode m2 => exact absurd hft (h t (List.mem_cons_self t ts) m2)

/-- Claim C3 (amended): a per-tank enrichment failure raised as a
member of the `FerrellgasApiError` family (authentication, connection,
api) is caught and logged: the tank is retained at its position in the
returned snapshot with `last_delivery` absent, the account-level
results are unaffected, and each tank's result depends only on the
fetch outcome for its own id — provided no tank's fetch raises an
escaping `json.JSONDecodeError`.  Such a decode error \(reachable
through a non-JSON order-list body, the path `spec_C5` exhibits\) is
not caught by `except FerrellgasApiError`: the last conjunct states
that it aborts the whole refresh, discarding every tank. -/
theorem spec_C3 (pd : String → Option DT) (account_id : String) (payload : PyVal)
    (fetch fetch' : String → Except TransportExc (Option FerrellgasOrderDetail))
    (hok : ∀ t ∈ (parse_account_summary pd account_id payload).tanks,
      ∀ m, fetch t.installed_product_id ≠ .error (.jsonDecode m)) :
    (∃ result, async_get_account_summary pd account_id payload fetch = .ok result)
    ∧ (∀ result,
        async_get_account_summary pd account_id payload fetch = .ok result →
        result.account_id = (parse_account_summary pd account_id payload).account_id
        ∧ result.account_name =
          (parse_account_summary pd account_id payload).account_name
        ∧ result.balance = (parse_account_summary pd account_id payload).balance
        ∧ result.tanks.length =
          (parse_account_summary pd account_id payload).tanks.length
        ∧ (∀ (i : ℕ) (tank : FerrellgasTankData) (e : ApiFailure),
            (parse_account_summary pd account_id payload).tanks[i]? = some tank →
            fetch tank.installed_product_id = .error (.ferrellgas e) →
            result.tanks[i]? = some tank ∧ tank.last_delivery = Option.none)
        ∧ (∀ (i : ℕ) (tank : FerrellgasTankData) (d : Option FerrellgasOrderDetail),
            (parse_account_summary pd account_id payload).tanks[i]? = some tank →
            fetch tank.installed_product_id = .ok d →
            result.tanks[i]? = some { tank with last_delivery := d }))
    ∧ (∀ (i : ℕ) (tank : FerrellgasTankData) (r r' : FerrellgasAccountData),
        (parse_account_summary pd account_id payload).tanks[i]? = some tank →
        fetch tank.installed_product_id = fetch' tank.installed_product_id →
        async_get_account_summary pd account_id payload fetch = .ok r →
        async_get_account_summary pd account_id payload fetch' = .ok r' →
        r.tanks[i]? = r'.tanks[i]?)
    ∧ (∀ (before_tanks rest : List FerrellgasTankData)
        (tank : FerrellgasTankData) (m : String),
        (∀ t ∈ before_tanks, ∀ m', fetch t.installed_product_id ≠
          .error (.jsonDecode m')) →
        fetch tank.installed_product_id = .error (.jsonDecode m) →
        enrichTanks fetch (before_tanks ++ tank :: rest) =
          .error (.jsonDecode m)) := by
  have hmain : async_get_account_summary pd account_id payload fetch =
      .ok { parse_account_summary pd account_id payload with
            tanks := (parse_account_summary pd account_id payload).tanks.map
              (fun tank => match fetch tank.installed_product_id with
                | .ok d => { tank with last_delivery := d }
                | .error _ => tank) } := by
    show (enrichTanks fetch (parse_account_summary pd account_id payload).tanks).map
      _ = _
    rw [enrichTanks_eq_map fetch _ hok]
    rfl
  refine ⟨⟨_, hmain⟩, ?_, ?_, ?_⟩
  · intro result hres
    rw [hmain] at hres
    cases hres
    refine ⟨rfl, rfl, rfl, List.length_map _ _, ?_, ?_⟩
    · intro i tank e hget hfet
      constructor
      · show ((parse_account_summary pd account_id payload).tanks.map _)[i]? =
          some tank
        rw [List.getElem?_map, hget]
        simp [hfet]
      · exact parse_account_summary_last_delivery pd account_id payload tank
          (List.getElem?_mem hget)
    · intro i tank d hget hfet
      show ((parse_account_summary pd account_id payload).tanks.map _)[i]? =
        some { tank with last_delivery := d }
      rw [List.getElem?_map, hget]
      simp [hfet]
  · intro i tank r r' hget hfeq hr hr'
    have hrt : r.tanks = (parse_account_summary pd account_id payload).tanks.map
        (fun tank => match fetch tank.installed_product_id with
          | .ok d => { tank with last_delivery := d }
          | .error _ => tank) := by
      have hr2 : (enrichTanks fetch
          (parse_account_summary pd account_id payload).tanks).map
          (fun ts => { parse_account_summary pd account_id payload with
            tanks := ts }) = .ok r := hr
      cases henr : enrichTanks fetch
          (parse_account_summary pd account_id payload).tanks <;>
        rw [henr] at hr2
      case ok ts =>
        cases hr2
        simpa using enrichTanks_ok_inv fetch _ ts henr
      case error e => cases hr2
    have hrt' : r'.tanks = (parse_account_summary pd account_id payload).tanks.map
        (fun tank => match fetch' tank.installed_product_id with
          | .ok d => { tank with last_delivery := d }
          | .error _ => tank) := by
      have hr2 : (enrichTanks fetch'
          (parse_account_summary pd account_id payload).tanks).map
          (fun ts => { parse_account_summary pd account_id payload with
            tanks := ts }) = .ok r' := hr'
      cases henr : enrichTanks fetch'
          (parse_account_summary pd account_id payload).tanks <;>
        rw [henr] at hr2
      case ok ts =>
        cases hr2
        simpa using enrichTanks_ok_inv fetch' _ ts henr
      case error e => cases hr2
    rw [hrt, hrt', List.getElem?_map, List.getElem?_map, hget]
    simp [hfeq]
  · exact fun before_tanks rest tank m h hf =>
      enrichTanks_aborts fetch before_tanks rest tank m h hf

/-- Counterexample to claim C3 as stated: a tank whose order-list fetch
hits a non-JSON body raises `json.JSONDecodeError`, which the loop's
`except FerrellgasApiError` does not catch — the account refresh aborts
with the escaping exception instead of returning a snapshot that
retains the tank, so not every fetch failure is caught. -/
theorem spec_C3_cex :
    async_get_account_summary (fun _ => Option.none) "ACC"
      (.dict [("SiteSummary", .list [.dict [("SiteId", .str "S1"),
        ("IPSummary", .list [.dict [("InstalledProductId", .str "IP1")]])]])])
      (fun _ => .error (.jsonDecode "Expecting value")) =
      .error (.jsonDecode "Expecting value") := rfl

/-- Witness for `spec_C3`: a single-tank payload whose delivery fetch
raises an `ApiError` keeps the tank with `last_delivery` absent, while
an escaping decode error aborts the enrichment loop. -/
theorem spec_C3_witness :
    (({ account_id := "ACC", account_name := "ACC", balance := Option.none,
        tanks :=
          [{ installed_product_id := "IP1", site_id := "S1",
             site_name := "S1", product_description := "Ferrellgas Tank",
             product_id := Option.none, full_capacity := Option.none,
             fill_capacity := Option.none, est_curr_pct := Option.none,
             estimated_percentage_date := Option.none,
             last_delivery := Option.none }] } :
        FerrellgasAccountData).tanks[0]? = some
      { installed_product_id := "IP1", site_id := "S1", site_name := "S1",
        product_description := "Ferrellgas Tank", product_id := Option.none,
        full_capacity := Option.none, fill_capacity := Option.none,
        est_curr_pct := Option.none, estimated_percentage_date := Option.none,
        last_delivery := Option.none })
    ∧ (enrichTanks (fun _ => .error (.jsonDecode "bad json"))
        ([] ++
          { installed_product_id := "IP1", site_id := "S1",
            site_name := "S1", product_description := "Ferrellgas Tank",
            product_id := Option.none, full_capacity := Option.none,
            fill_capacity := Option.none, est_curr_pct := Option.none,
            estimated_percentage_date := Option.none,
            last_delivery := Option.none } :: []) =
        .error (.jsonDecode "bad json")) := by
  constructor
  · exact (((spec_C3 (fun _ => Option.none) "ACC"
      (.dict [("SiteSummary", .list [.dict [("SiteId", .str "S1"),
        ("IPSummary", .list [.dict [("InstalledProductId", .str "IP1")]])]])])
      (fun _ => .error (.ferrellgas (.api "boom")))
      (fun _ => .error (.ferrellgas (.api "boom")))
      (fun t ht m hcon => by simp at hcon)).2.1 _ rfl).2.2.2.2.1 0
      { installed_product_id := "IP1", site_id := "S1", site_name := "S1",
        product_description := "Ferrellgas Tank", product_id := Option.none,
        full_capacity := Option.none, fill_capacity := Option.none,
        est_curr_pct := Option.none, estimated_percentage_date := Option.none,
        last_delivery := Option.none }
      (.api "boom") rfl rfl).1
  · exact (spec_C3 (fun _ => Option.none) "ACC" (.dict [])
      (fun _ => .error (.jsonDecode "bad json"))
      (fun _ => .error (.jsonDecode "bad json"))
      (fun t ht => absurd ht (List.not_mem_nil t))).2.2.2 [] []
      { installed_product_id := "IP1", site_id := "S1", site_name := "S1",
        product_description := "Ferrellgas Tank", product_id := Option.none,
        full_capacity := Option.none, fill_capacity := Option.none,
        est_curr_pct := Option.none, estimated_percentage_date := Option.none,
        last_delivery := Option.none } "bad json"
      (fun t ht => absurd ht (List.not_mem_nil t)) rfl

/-! ## Claim C4 — login failure classification -/

/-- Claim C4 (amended): `login` fails exactly when the `success` flag is
falsy — carrying the response's error message when that message is
truthy and the default `"Login failed"` when the error field is absent
or falsy — or when `accessToken` is absent, empty, or not a string
despite a truthy `success`; otherwise it returns the token string.
Both failure causes surface as the same error kind
(`FerrellgasAuthenticationError`, the `Except.error` side here). -/
theorem spec_C4 (response : PyVal) :
    (∀ t, login response = .ok t ↔
        pyTruthy (pyGet response "success") = true ∧
        pyGet response "accessToken" = .str t ∧ t ≠ "")
    ∧ (¬ pyTruthy (pyGet response "success") = true →
        login response = .error
          (if pyTruthy (pyGet response "error") = true
           then pyStr (pyGet response "error") else "Login failed"))
    ∧ (pyTruthy (pyGet response "success") = true →
        (∀ s, pyGet response "accessToken" = .str s → s ≠ "" →
          login response = .ok s)
        ∧ ((∀ s, pyGet response "accessToken" = .str s → s = "") →
          login response = .error "Login succeeded but access token missing"))
    ∧ (login (.dict [("success", .bool false), ("error", .str "bad creds")]) =
        .error "bad creds")
    ∧ (login (.dict [("success", .bool true)]) =
        .error "Login succeeded but access token missing") := by
  refine ⟨?_, ?_, ?_, rfl, rfl⟩
  · intro t
    constructor
    · intro h
      rw [login] at h
      by_cases hs : pyTruthy (pyGet response "success") = true
      · rw [if_neg (by simp [hs])] at h
        refine ⟨hs, ?_⟩
        cases hat : pyGet response "accessToken" with
        | str s =>
          rw [hat] at h
          by_cases hse : s = ""
          · simp [hse] at h
          · simp [hse] at h
            subst h
            exact ⟨rfl, hse⟩
        | none => rw [hat] at h; simp at h
        | bool b => rw [hat] at h; simp at h
        | int n => rw [hat] at h; simp at h
        | float q => rw [hat] at h; simp at h
        | list xs => rw [hat] at h; simp at h
        | dict kvs => rw [hat] at h; simp at h
      · rw [if_pos (by simp [hs])] at h
        cases h
    · rintro ⟨hs, hat, hne⟩
      rw [login, if_neg (by simp [hs]), hat]
      simp [hne]
  · intro hs
    rw [login, if_pos (by simp [hs])]
    by_cases he : pyTruthy (pyGet response "error") = true <;> simp [pyOr, he, pyStr]
  · intro hs
    constructor
    · intro s hat hne
      rw [login, if_neg (by simp [hs]), hat]
      simp [hne]
    · intro hall
      rw [login, if_neg (by simp [hs])]
      cases hat : pyGet response "accessToken" with
      | str s =>
        have hse : s = "" := hall s hat
        simp [hse]
      | none => rfl
      | bool b => rfl
      | int n => rfl
      | float q => rfl
      | list xs => rfl
      | dict kvs => rfl

/-- Witness for `spec_C4`: a successful response returns its token, and
a falsy `success` with truthy error message carries that message. -/
theorem spec_C4_witness :
    (login (.dict [("success", .bool true), ("accessToken", .str "tok")]) =
      .ok "tok")
    ∧ (login (.dict [("success", .bool false), ("error", .str "nope")]) =
      .error "nope") := by
  constructor
  · exact ((spec_C4 (.dict [("success", .bool true),
      ("accessToken", .str "tok")])).1 "tok").2 ⟨rfl, rfl, by decide⟩
  · exact (spec_C4 (.dict [("success", .bool false),
      ("error", .str "nope")])).2.1 (by decide)

/-- Counterexample to claim C4 as stated: with `success` falsy and the
error field present but empty (falsy), the code raises the default
message `"Login failed"`, not the response's (empty) error message. -/
theorem spec_C4_cex :
    login (.dict [("success", .bool false), ("error", .str "")]) =
      .error "Login failed"
    ∧ ("Login failed" : String) ≠ "" := by
  exact ⟨rfl, by decide⟩

/-! ## Claim C5 — transport response classification -/

/-- Claim C5 (code behaviour at the classification points): HTTP 401 and
403 raise `FerrellgasAuthenticationError`, taking precedence over the
generic `>= 400` rule; any other status `>= 400` raises
`FerrellgasApiError` with the status and body text in the message; a
decoded non-dict body raises `FerrellgasApiError`; `get_list` returns a
decoded array as is, accepts a bare object as a one-element array, and
degrades any other decoded value to the empty list.  For a body that is
not JSON at all, however, `json.loads` raises `json.JSONDecodeError`,
which none of the `except` clauses catch (the
`except aiohttp.ContentTypeError` branch is unreachable under
`content_type=None`), so no `FerrellgasApiError` is raised — the last
two conjuncts exhibit this divergence from the claim. -/
theorem spec_C5 :
    (∀ body j, handle_response ⟨401, body, j⟩ =
        .error (.ferrellgas (.authentication "Authentication error: HTTP 401")))
    ∧ (∀ body j, handle_response ⟨403, body, j⟩ =
        .error (.ferrellgas (.authentication "Authentication error: HTTP 403")))
    ∧ (∀ s body j, 400 ≤ s → s ≠ 401 → s ≠ 403 →
        handle_response ⟨s, body, j⟩ = .error (.ferrellgas (.api
          ("API request failed: HTTP " ++ toString s ++ " - " ++ body))))
    ∧ (∀ s body j, 400 ≤ s → s ≠ 401 → s ≠ 403 →
        get_list ⟨s, body, j⟩ = .error (.ferrellgas (.api
          ("API request failed: HTTP " ++ toString s ++ " - " ++ body))))
    ∧ (∀ s body v, s < 400 → ¬ v.isDict = true →
        handle_response ⟨s, body, .ok v⟩ =
          .error (.ferrellgas (.api "API returned unexpected payload type")))
    ∧ (∀ s body kvs, s < 400 → handle_response ⟨s, body, .ok (.dict kvs)⟩ =
        .ok (.dict kvs))
    ∧ (∀ s body xs, s < 400 → get_list ⟨s, body, .ok (.list xs)⟩ = .ok xs)
    ∧ (∀ s body kvs, s < 400 → get_list ⟨s, body, .ok (.dict kvs)⟩ =
        .ok [.dict kvs])
    ∧ (∀ s body v, s < 400 → (∀ xs, v ≠ .list xs) → (∀ kvs, v ≠ .dict kvs) →
        get_list ⟨s, body, .ok v⟩ = .ok [])
    ∧ (∀ s body m, s < 400 →
        handle_response ⟨s, body, .decodeError m⟩ = .error (.jsonDecode m))
    ∧ (∀ m m', (TransportExc.jsonDecode m) ≠ .ferrellgas (.api m')) := by
  have hnot : ∀ s : ℕ, s < 400 → ¬ (s = 401 ∨ s = 403) := by omega
  have hnotge : ∀ s : ℕ, s < 400 → ¬ 400 ≤ s := by omega
  refine ⟨?_, ?_, ?_, ?_, ?_, ?_, ?_, ?_, ?_, ?_, ?_⟩
  · intro body j; simp [handle_response]; decide
  · intro body j; simp [handle_response]; decide
  · intro s body j hge h1 h3
    simp [handle_response, hge, h1, h3]
  · intro s body j hge h1 h3
    simp [get_list, hge, h1, h3]
  · intro s body v hlt hnd
    cases v <;> simp_all [handle_response, hnot s hlt, hnotge s hlt, PyVal.isDict]
  · intro s body kvs hlt
    simp [handle_response, hnot s hlt, hnotge s hlt, PyVal.isDict]
  · intro s body xs hlt
    simp [get_list, hnot s hlt, hnotge s hlt]
  · intro s body kvs hlt
    simp [get_list, hnot s hlt, hnotge s hlt]
  · intro s body v hlt hnl hnd
    cases v <;> simp_all [get_list, hnot s hlt, hnotge s hlt]
  · intro s body m hlt
    simp [handle_response, hnot s hlt, hnotge s hlt]
  · intro m m' h
    cases h

/-- Witness for `spec_C5`: concrete classifications, including the
non-JSON body whose `json.JSONDecodeError` escapes instead of
becoming a `FerrellgasApiError`. -/
theorem spec_C5_witness :
    (handle_response ⟨500, "oops", .ok .none⟩ = .error (.ferrellgas (.api
        ("API request failed: HTTP " ++ toString 500 ++ " - " ++ "oops"))))
    ∧ (handle_response ⟨403, "denied", .ok .none⟩ =
        .error (.ferrellgas (.authentication "Authentication error: HTTP 403")))
    ∧ (get_list ⟨200, "5", .ok (.int 5)⟩ = .ok [])
    ∧ (handle_response ⟨200, "not json", .decodeError "Expecting value"⟩ =
        .error (.jsonDecode "Expecting value")) := by
  refine ⟨?_, ?_, ?_, ?_⟩
  · exact (spec_C5).2.2.1 500 "oops" (.ok .none) (by omega) (by omega) (by omega)
  · exact (spec_C5).2.1 "denied" (.ok .none)
  · exact (spec_C5).2.2.2.2.2.2.2.2.1 200 "5" (.int 5) (by omega)
      (fun xs h => by cases h) (fun kvs h => by cases h)
  · exact (spec_C5).2.2.2.2.2.2.2.2.2.1 200 "not json" "Expecting value" (by omega)

/-! ## Claim C6 — defensive account-summary parsing -/

/-- Claim C6: account-summary parsing is total and degrades instead of
failing: a non-array `SiteSummary` yields no tanks; the tank list
decomposes site by site; non-dict sites, sites with a non-array
`IPSummary`, and non-dict tank entries contribute nothing; the numeric
tank fields are exactly the `_to_float` coercion of their raw values
(absent for strings, null, arrays and objects) and the reading
timestamp is absent for any non-string or empty raw value; the balance
is absent unless `FinancialSummary` is a dict with a coercible
`Balance`. -/
theorem spec_C6 (pd : String → Option DT) (account_id : String) (payload : PyVal) :
    (∀ v, pyGetD payload "SiteSummary" (.list []) = v → (∀ xs, v ≠ .list xs) →
      (parse_account_summary pd account_id payload).tanks = [])
    ∧ (∀ sites, pyGetD payload "SiteSummary" (.list []) = .list sites →
      (parse_account_summary pd account_id payload).tanks =
        (sites.enum.map (fun p => parse_site pd p.1 p.2)).flatten)
    ∧ (∀ i v, ¬ v.isDict = true → parse_site pd i v = [])
    ∧ (∀ i kvs v, pyGetD (.dict kvs) "IPSummary" (.list []) = v →
        (∀ xs, v ≠ .list xs) → parse_site pd i (.dict kvs) = [])
    ∧ (∀ sid sname j v, ¬ v.isDict = true →
        parse_tank pd sid sname j v = Option.none)
    ∧ (∀ sid sname j kvs t, parse_tank pd sid sname j (.dict kvs) = some t →
        t.full_capacity = to_float (pyGet (.dict kvs) "FullCapacity") ∧
        t.fill_capacity = to_float (pyGet (.dict kvs) "FillCapacity") ∧
        t.est_curr_pct = to_float (pyGet (.dict kvs) "EstCurrPct") ∧
        t.estimated_percentage_date =
          parse_datetime pd (pyGet (.dict kvs) "EstimatedPercentageDate"))
    ∧ ((∀ s, to_float (.str s) = Option.none) ∧ to_float .none = Option.none ∧
        (∀ xs, to_float (.list xs) = Option.none) ∧
        (∀ kvs, to_float (.dict kvs) = Option.none))
    ∧ ((∀ v, (∀ s, v ≠ .str s) → parse_datetime pd v = Option.none) ∧
        parse_datetime pd (.str "") = Option.none)
    ∧ (∀ v, pyGet payload "FinancialSummary" = v → (∀ kvs, v ≠ .dict kvs) →
        (parse_account_summary pd account_id payload).balance = Option.none)
    ∧ (∀ kvs, pyGet payload "FinancialSummary" = .dict kvs →
        (parse_account_summary pd account_id payload).balance =
          to_float (pyGet (.dict kvs) "Balance")) := by
  refine ⟨?_, ?_, ?_, ?_, ?_, ?_, ?_, ?_, ?_, ?_⟩
  · intro v hv hnl
    simp only [parse_account_summary]
    rw [hv]
    cases v <;> first
      | rfl
      | (rename_i xs; exact absurd rfl (hnl xs))
  · intro sites hs
    simp only [parse_account_summary]
    rw [hs]
  · intro i v h
    cases v <;> simp_all [parse_site, PyVal.isDict]
  · intro i kvs v hv hnl
    simp only [parse_site]
    rw [hv]
    cases v <;> first
      | rfl
      | (rename_i xs; exact absurd rfl (hnl xs))
  · intro sid sname j v h
    cases v <;> simp_all [parse_tank, PyVal.isDict]
  · intro sid sname j kvs t h
    simp only [parse_tank] at h
    cases h
    exact ⟨rfl, rfl, rfl, rfl⟩
  · exact ⟨fun s => rfl, rfl, fun xs => rfl, fun kvs => rfl⟩
  · constructor
    · intro v hv
      cases v <;> first
        | rfl
        | (rename_i s; exact absurd rfl (hv s))
    · rfl
  · intro v hv hnd
    simp only [parse_account_summary]
    rw [hv]
    cases v <;> first
      | rfl
      | (rename_i kvs; exact absurd rfl (hnd kvs))
  · intro kvs hv
    simp only [parse_account_summary]
    rw [hv]

/-- Witness for `spec_C6`: a payload with a string `SiteSummary` parses
to no tanks, and a tank entry with a string `FullCapacity` and boolean
`EstimatedPercentageDate` parses with those fields absent. -/
theorem spec_C6_witness :
    ((parse_account_summary (fun _ => Option.none) "ACC"
        (.dict [("SiteSummary", .str "broken")])).tanks = [])
    ∧ (∀ t, parse_tank (fun _ => Option.none) "S1" "S1" 0
        (.dict [("FullCapacity", .str "big"),
                ("EstimatedPercentageDate", .bool true)]) = some t →
        t.full_capacity = Option.none ∧
        t.estimated_percentage_date = Option.none) := by
  constructor
  · exact (spec_C6 (fun _ => Option.none) "ACC"
      (.dict [("SiteSummary", .str "broken")])).1 (.str "broken") rfl
      (fun xs h => by cases h)
  · intro t ht
    obtain ⟨h1, _, _, h4⟩ := (spec_C6 (fun _ => Option.none) "ACC"
      (.dict [])).2.2.2.2.2.1 "S1" "S1" 0
      [("FullCapacity", .str "big"), ("EstimatedPercentageDate", .bool true)] t ht
    exact ⟨h1, h4⟩

/-! ## Claim C8 — permissive numeric coercion -/

/-- Counterexample to claim C8 as stated: the coercion does not reject
every non-integer non-float value — a boolean is accepted (Python
booleans are instances of `int`), so `_to_float(True)` is `1.0`, not
absent. -/
theorem spec_C8_cex :
    to_float (.bool true) = some 1 ∧ to_float (.bool true) ≠ Option.none :=
  ⟨rfl, by decide⟩

/-- Claim C8 (amended): the coercion accepts integer, floating and
boolean values (booleans are integers in the implementation language,
coercing to `1.0`/`0.0`), returns them as floats, and rejects strings,
null, arrays and objects as absent; it never raises (it is total). -/
theorem spec_C8 :
    (∀ n : ℤ, to_float (.int n) = some (n : ℚ))
    ∧ (∀ q : ℚ, to_float (.float q) = some q)
    ∧ (∀ b, to_float (.bool b) = some (if b then 1 else 0))
    ∧ (∀ s, to_float (.str s) = Option.none)
    ∧ (to_float .none = Option.none)
    ∧ (∀ xs, to_float (.list xs) = Option.none)
    ∧ (∀ kvs, to_float (.dict kvs) = Option.none) :=
  ⟨fun _ => rfl, fun _ => rfl, fun _ => rfl, fun _ => rfl, rfl,
    fun _ => rfl, fun _ => rfl⟩

/-! ## Claim C9 — synthesized tank identity -/

/-- Claim C9: when a tank entry's `InstalledProductId` is missing, empty
or not a string, the parser synthesizes `"{site_id}_{index}"`; in
particular a tank dict lacking the field at site `"S1"` index 2 yields
`"S1_2"`. -/
theorem spec_C9 (pd : String → Option DT) (site_id site_name : String)
    (j : ℕ) (kvs : List (String × PyVal)) :
    (∀ t, parse_tank pd site_id site_name j (.dict kvs) = some t →
      provider_id (.dict kvs) = Option.none →
      t.installed_product_id = site_id ++ "_" ++ toString j)
    ∧ (∀ v, pyGet (.dict kvs) "InstalledProductId" = v → (∀ s, v ≠ .str s) →
        provider_id (.dict kvs) = Option.none)
    ∧ (pyGet (.dict kvs) "InstalledProductId" = .str "" →
        provider_id (.dict kvs) = Option.none)
    ∧ ((parse_tank pd "S1" "Home" 2 (.dict [])).map
        (fun t => t.installed_product_id) = some "S1_2") := by
  refine ⟨?_, ?_, ?_, rfl⟩
  · intro t ht hp
    simp only [parse_tank] at ht
    cases ht
    simp [tank_id_of, hp]
  · intro v hv hns
    rw [provider_id, hv]
    cases v <;> first
      | rfl
      | (rename_i s; exact absurd rfl (hns s))
  · intro h
    rw [provider_id, h]
    rfl

/-- Witness for `spec_C9`: the parsed empty tank dict at site `"S1"`
index 2 carries the synthesized identity. -/
theorem spec_C9_witness :
    ({ installed_product_id := "S1_2", site_id := "S1", site_name := "Home",
       product_description := "Ferrellgas Tank", product_id := Option.none,
       full_capacity := Option.none, fill_capacity := Option.none,
       est_curr_pct := Option.none, estimated_percentage_date := Option.none,
       last_delivery := Option.none } :
      FerrellgasTankData).installed_product_id = "S1" ++ "_" ++ toString 2 :=
  (spec_C9 (fun _ => Option.none) "S1" "Home" 2 []).1
    { installed_product_id := "S1_2", site_id := "S1", site_name := "Home",
      product_description := "Ferrellgas Tank", product_id := Option.none,
      full_capacity := Option.none, fill_capacity := Option.none,
      est_curr_pct := Option.none, estimated_percentage_date := Option.none,
      last_delivery := Option.none } rfl rfl

/-! ## Claim C10 — order-detail parsing -/

theorem isDict_dict (kvs : List (String × PyVal)) :
    (PyVal.dict kvs).isDict = true := rfl

/-- The line-item loop, characterized: lines accumulate in order (dict
entries only), and each special field holds the value from the last
line bearing its product code, or its prior value when none occurs. -/
theorem foldl_order_line_step (ls : List PyVal) (acc : LineAcc) :
    (ls.foldl order_line_step acc).lines =
      acc.lines ++ (ls.filter (fun l => l.isDict)).map order_line_of
    ∧ (ls.foldl order_line_step acc).propane_gallons =
      ((((ls.filter (fun l => l.isDict)).map order_line_of).filter
          (fun l => l.product = "PROPANE")).getLast?.map
        (fun l => some l.quantity)).getD acc.propane_gallons
    ∧ (ls.foldl order_line_step acc).propane_ppg =
      ((((ls.filter (fun l => l.isDict)).map order_line_of).filter
          (fun l => l.product = "PROPANE")).getLast?.map
        (fun l => some l.unit_price)).getD acc.propane_ppg
    ∧ (ls.foldl order_line_step acc).propane_subtotal =
      ((((ls.filter (fun l => l.isDict)).map order_line_of).filter
          (fun l => l.product = "PROPANE")).getLast?.map
        (fun l => some l.total_price)).getD acc.propane_subtotal
    ∧ (ls.foldl order_line_step acc).fuel_surcharge =
      ((((ls.filter (fun l => l.isDict)).map order_line_of).filter
          (fun l => l.product = "FUEL_SURCHARGE")).getLast?.map
        (fun l => some l.total_price)).getD acc.fuel_surcharge
    ∧ (ls.foldl order_line_step acc).hazmat_fee =
      ((((ls.filter (fun l => l.isDict)).map order_line_of).filter
          (fun l => l.product = "HAZMAT_FEE")).getLast?.map
        (fun l => some l.total_price)).getD acc.hazmat_fee := by
  induction ls using List.reverseRecOn generalizing acc with
  | nil => simp
  | append_singleton ls raw ih =>
    obtain ⟨ih1, ih2, ih3, ih4, ih5, ih6⟩ := ih acc
    rw [List.foldl_append]
    simp only [List.foldl_cons, List.foldl_nil]
    cases raw
    case dict kvs =>
      simp only [order_line_step, List.filter_append, List.map_append,
        List.filter_cons, List.filter_nil, isDict_dict, if_true,
        List.map_cons, List.map_nil]
      by_cases h1 : (order_line_of (.dict kvs)).product = "PROPANE"
      · have h2 : ¬ (order_line_of (.dict kvs)).product = "FUEL_SURCHARGE" := by
          rw [h1]; decide
        have h3 : ¬ (order_line_of (.dict kvs)).product = "HAZMAT_FEE" := by
          rw [h1]; decide
        simp [h1, h2, h3, ih1, ih2, ih3, ih4, ih5, ih6, List.filter_append,
          List.getLast?_concat, ← List.append_assoc]
      · by_cases h2 : (order_line_of (.dict kvs)).product = "FUEL_SURCHARGE"
        · have h3 : ¬ (order_line_of (.dict kvs)).product = "HAZMAT_FEE" := by
            rw [h2]; decide
          simp [h1, h2, h3, ih1, ih2, ih3, ih4, ih5, ih6, List.filter_append,
            List.getLast?_concat, ← List.append_assoc]
        · by_cases h3 : (order_line_of (.dict kvs)).product = "HAZMAT_FEE"
          · simp [h1, h2, h3, ih1, ih2, ih3, ih4, ih5, ih6, List.filter_append,
              List.getLast?_concat, ← List.append_assoc]
          · simp [h1, h2, h3, ih1, ih2, ih3, ih4, ih5, ih6, List.filter_append,
              ← List.append_assoc]
    all_goals
      simp [order_line_step, List.filter_append, PyVal.isDict,
        ih1, ih2, ih3, ih4, ih5, ih6]

/-- Claim C10: `order_id` prefers the detail payload's own identifier
(`OrderNumber`), falling back to the summary entry's `ID`;
`grand_total` and `total_tax` default to `0.0` when missing or
non-numeric and are never absent (the fields are not optional); every
dict line is recorded as a line item in order, and the propane and fee
fields hold exactly the values of the last line whose product code is
`"PROPANE"`, `"FUEL_SURCHARGE"` or `"HAZMAT_FEE"` respectively —
unrecognized codes appear only among the line items. -/
theorem spec_C10 (pd : String → Option DT) (detail summary : PyVal) :
    (pyTruthy (pyGet detail "OrderNumber") = true →
      (parse_order_detail pd detail summary).order_id =
        pyStr (pyGet detail "OrderNumber"))
    ∧ (¬ pyTruthy (pyGet detail "OrderNumber") = true →
      (parse_order_detail pd detail summary).order_id =
        pyStr (pyGetD summary "ID" (.str "")))
    ∧ ((parse_order_detail pd detail summary).grand_total =
        (to_float (pyGet detail "GrandTotal")).getD 0)
    ∧ (to_float (pyGet detail "GrandTotal") = Option.none →
        (parse_order_detail pd detail summary).grand_total = 0)
    ∧ ((parse_order_detail pd detail summary).total_tax =
        (to_float (pyGet detail "TotalTax")).getD 0)
    ∧ (to_float (pyGet detail "TotalTax") = Option.none →
        (parse_order_detail pd detail summary).total_tax = 0)
    ∧ (∀ ls, pyGetD detail "Lines" (.list []) = .list ls →
        (parse_order_detail pd detail summary).lines =
          (ls.filter (fun l => l.isDict)).map order_line_of
        ∧ (parse_order_detail pd detail summary).propane_gallons =
          (((ls.filter (fun l => l.isDict)).map order_line_of).filter
              (fun l => l.product = "PROPANE")).getLast?.map
            (fun l => l.quantity)
        ∧ (parse_order_detail pd detail summary).propane_price_per_gallon =
          (((ls.filter (fun l => l.isDict)).map order_line_of).filter
              (fun l => l.product = "PROPANE")).getLast?.map
            (fun l => l.unit_price)
        ∧ (parse_order_detail pd detail summary).propane_subtotal =
          (((ls.filter (fun l => l.isDict)).map order_line_of).filter
              (fun l => l.product = "PROPANE")).getLast?.map
            (fun l => l.total_price)
        ∧ (parse_order_detail pd detail summary).fuel_surcharge =
          (((ls.filter (fun l => l.isDict)).map order_line_of).filter
              (fun l => l.product = "FUEL_SURCHARGE")).getLast?.map
            (fun l => l.total_price)
        ∧ (parse_order_detail pd detail summary).hazmat_fee =
          (((ls.filter (fun l => l.isDict)).map order_line_of).filter
              (fun l => l.product = "HAZMAT_FEE")).getLast?.map
            (fun l => l.total_price)) := by
  refine ⟨?_, ?_, rfl, ?_, rfl, ?_, ?_⟩
  · intro h
    simp only [parse_order_detail]
    simp [pyOr, h]
  · intro h
    simp only [parse_order_detail]
    simp [pyOr, h]
  · intro h
    show (to_float (pyGet detail "GrandTotal")).getD 0 = 0
    rw [h]
    rfl
  · intro h
    show (to_float (pyGet detail "TotalTax")).getD 0 = 0
    rw [h]
    rfl
  · intro ls hls
    have hacc := foldl_order_line_step ls
      ⟨[], Option.none, Option.none, Option.none, Option.none, Option.none⟩
    obtain ⟨h1, h2, h3, h4, h5, h6⟩ := hacc
    have hmatch : (match pyGetD detail "Lines" (.list []) with
        | PyVal.list raw_lines =>
          raw_lines.foldl order_line_step
            ⟨[], Option.none, Option.none, Option.none, Option.none, Option.none⟩
        | _ => ⟨[], Option.none, Option.none, Option.none, Option.none, Option.none⟩) =
        ls.foldl order_line_step
          ⟨[], Option.none, Option.none, Option.none, Option.none, Option.none⟩ := by
      rw [hls]
    refine ⟨?_, ?_, ?_, ?_, ?_, ?_⟩
    all_goals
      simp only [parse_order_detail, hmatch]
    · rw [h1]; rfl
    · rw [h2]
      cases ((ls.filter (fun l => l.isDict)).map order_line_of).filter
        (fun l => l.product = "PROPANE") |>.getLast? <;> rfl
    · rw [h3]
      cases ((ls.filter (fun l => l.isDict)).map order_line_of).filter
        (fun l => l.product = "PROPANE") |>.getLast? <;> rfl
    · rw [h4]
      cases ((ls.filter (fun l => l.isDict)).map order_line_of).filter
        (fun l => l.product = "PROPANE") |>.getLast? <;> rfl
    · rw [h5]
      cases ((ls.filter (fun l => l.isDict)).map order_line_of).filter
        (fun l => l.product = "FUEL_SURCHARGE") |>.getLast? <;> rfl
    · rw [h6]
      cases ((ls.filter (fun l => l.isDict)).map order_line_of).filter
        (fun l => l.product = "HAZMAT_FEE") |>.getLast? <;> rfl

/-- Witness for `spec_C10`: a concrete order detail whose `OrderNumber`
is present, with a propane line, a fee line and an unrecognized line. -/
theorem spec_C10_witness :
    ((parse_order_detail (fun _ => Option.none)
      (.dict [("OrderNumber", .str "ON1"),
              ("Lines", .list
                [.dict [("Product", .str "PROPANE"), ("Quantity", .float 100),
                        ("UnitPrice", .float (5/2)), ("TotalPrice", .float 250)],
                 .dict [("Product", .str "FUEL_SURCHARGE"),
                        ("TotalPrice", .float 10)],
                 .dict [("Product", .str "MYSTERY"), ("TotalPrice", .float 1)]])])
      (.dict [("ID", .str "SUM1")])).order_id = "ON1")
    ∧ ((parse_order_detail (fun _ => Option.none)
      (.dict [("OrderNumber", .str "ON1"),
              ("Lines", .list
                [.dict [("Product", .str "PROPANE"), ("Quantity", .float 100),
                        ("UnitPrice", .float (5/2)), ("TotalPrice", .float 250)],
                 .dict [("Product", .str "FUEL_SURCHARGE"),
                        ("TotalPrice", .float 10)],
                 .dict [("Product", .str "MYSTERY"), ("TotalPrice", .float 1)]])])
      (.dict [("ID", .str "SUM1")])).propane_gallons = some 100)
    ∧ ((parse_order_detail (fun _ => Option.none)
      (.dict [("OrderNumber", .str "ON1"),
              ("Lines", .list
                [.dict [("Product", .str "PROPANE"), ("Quantity", .float 100),
                        ("UnitPrice", .float (5/2)), ("TotalPrice", .float 250)],
                 .dict [("Product", .str "FUEL_SURCHARGE"),
                        ("TotalPrice", .float 10)],
                 .dict [("Product", .str "MYSTERY"), ("TotalPrice", .float 1)]])])
      (.dict [("ID", .str "SUM1")])).hazmat_fee = Option.none)
    ∧ ((parse_order_detail (fun _ => Option.none)
      (.dict [("OrderNumber", .str "ON1"),
              ("Lines", .list
                [.dict [("Product", .str "PROPANE"), ("Quantity", .float 100),
                        ("UnitPrice", .float (5/2)), ("TotalPrice", .float 250)],
                 .dict [("Product", .str "FUEL_SURCHARGE"),
                        ("TotalPrice", .float 10)],
                 .dict [("Product", .str "MYSTERY"), ("TotalPrice", .float 1)]])])
      (.dict [("ID", .str "SUM1")])).grand_total = 0) := by
  have H := spec_C10 (fun _ => Option.none)
    (.dict [("OrderNumber", .str "ON1"),
            ("Lines", .list
              [.dict [("Product", .str "PROPANE"), ("Quantity", .float 100),
                      ("UnitPrice", .float (5/2)), ("TotalPrice", .float 250)],
               .dict [("Product", .str "FUEL_SURCHARGE"),
                      ("TotalPrice", .float 10)],
               .dict [("Product", .str "MYSTERY"), ("TotalPrice", .float 1)]])])
    (.dict [("ID", .str "SUM1")])
  obtain ⟨ha, _, _, hgt, _, _, hlines⟩ := H
  obtain ⟨_, hpg, _, _, _, hhz⟩ := hlines
    [.dict [("Product", .str "PROPANE"), ("Quantity", .float 100),
            ("UnitPrice", .float (5/2)), ("TotalPrice", .float 250)],
     .dict [("Product", .str "FUEL_SURCHARGE"), ("TotalPrice", .float 10)],
     .dict [("Product", .str "MYSTERY"), ("TotalPrice", .float 1)]] rfl
  refine ⟨ha (by decide), hpg.trans (by decide), hhz.trans (by decide),
    hgt rfl⟩

/-! ## Claim C7 — identity uniqueness: decimal-string infrastructure -/

/-- The decimal digits of a natural number, most significant first: a
fuel-free reference for core's `Nat.toDigitsCore`. -/
def decimalChars (n : ℕ) : List Char :=
  if h : n < 10 then [Nat.digitChar n]
  else decimalChars (n / 10) ++ [Nat.digitChar (n % 10)]
termination_by n
decreasing_by exact Nat.div_lt_self (by omega) (by omega)

theorem toDigitsCore_eq_decimalChars (fuel : ℕ) :
    ∀ (n : ℕ) (ds : List Char), n < fuel →
      Nat.toDigitsCore 10 fuel n ds = decimalChars n ++ ds := by
  induction fuel with
  | zero => intro n ds h; omega
  | succ f ih =>
    intro n ds h
    rw [decimalChars]
    simp only [Nat.toDigitsCore]
    by_cases h10 : n < 10
    · have hdiv : n / 10 = 0 := Nat.div_eq_of_lt h10
      rw [if_pos hdiv, dif_pos h10]
      have hmod : n % 10 = n := Nat.mod_eq_of_lt h10
      rw [hmod]
      rfl
    · have hdiv : ¬ n / 10 = 0 := by omega
      rw [if_neg hdiv, dif_neg h10]
      rw [ih (n / 10) (Nat.digitChar (n % 10) :: ds) (by omega)]
      simp

theorem repr_data_eq_decimalChars (n : ℕ) :
    (Nat.repr n).data = decimalChars n := by
  show (Nat.toDigits 10 n).asString.data = decimalChars n
  rw [Nat.toDigits, toDigitsCore_eq_decimalChars (n + 1) n [] (Nat.lt_succ_self n)]
  simp [List.asString]

theorem digitChar_ne_underscore (k : ℕ) (h : k < 10) : Nat.digitChar k ≠ '_' := by
  interval_cases k <;> decide

theorem decimalChars_ne_underscore (n : ℕ) : ∀ c ∈ decimalChars n, c ≠ '_' := by
  induction n using Nat.strong_induction_on with
  | _ n ih =>
    rw [decimalChars]
    by_cases h : n < 10
    · rw [dif_pos h]
      intro c hc
      rw [List.mem_singleton] at hc
      subst hc
      exact digitChar_ne_underscore n h
    · rw [dif_neg h]
      intro c hc
      rcases List.mem_append.1 hc with hc | hc
      · exact ih (n / 10) (Nat.div_lt_self (by omega) (by omega)) c hc
      · rw [List.mem_singleton] at hc
        subst hc
        exact digitChar_ne_underscore (n % 10) (Nat.mod_lt n (by omega))

theorem digitChar_inj (a b : ℕ) (ha : a < 10) (hb : b < 10)
    (h : Nat.digitChar a = Nat.digitChar b) : a = b := by
  interval_cases a <;> interval_cases b <;> revert h <;> decide

theorem decimalChars_ne_nil (n : ℕ) : decimalChars n ≠ [] := by
  rw [decimalChars]
  by_cases h : n < 10 <;> simp [h]

theorem decimalChars_inj (m : ℕ) :
    ∀ n : ℕ, decimalChars m = decimalChars n → m = n := by
  induction m using Nat.strong_induction_on with
  | _ m ih =>
    intro n h
    by_cases hm : m < 10 <;> by_cases hn : n < 10
    · have em : decimalChars m = [Nat.digitChar m] := by
        rw [decimalChars]; rw [dif_pos hm]
      have en : decimalChars n = [Nat.digitChar n] := by
        rw [decimalChars]; rw [dif_pos hn]
      rw [em, en] at h
      simp only [List.cons.injEq, and_true] at h
      exact digitChar_inj m n hm hn h
    · have em : decimalChars m = [Nat.digitChar m] := by
        rw [decimalChars]; rw [dif_pos hm]
      have en : decimalChars n =
          decimalChars (n / 10) ++ [Nat.digitChar (n % 10)] := by
        rw [decimalChars]; rw [dif_neg hn]
      rw [em, en] at h
      have hlen := congrArg List.length h
      simp at hlen
      exact absurd hlen (decimalChars_ne_nil (n / 10))
    · have em : decimalChars m =
          decimalChars (m / 10) ++ [Nat.digitChar (m % 10)] := by
        rw [decimalChars]; rw [dif_neg hm]
      have en : decimalChars n = [Nat.digitChar n] := by
        rw [decimalChars]; rw [dif_pos hn]
      rw [em, en] at h
      have hlen := congrArg List.length h
      simp at hlen
      exact absurd hlen (decimalChars_ne_nil (m / 10))
    · have em : decimalChars m =
          decimalChars (m / 10) ++ [Nat.digitChar (m % 10)] := by
        rw [decimalChars]; rw [dif_neg hm]
      have en : decimalChars n =
          decimalChars (n / 10) ++ [Nat.digitChar (n % 10)] := by
        rw [decimalChars]; rw [dif_neg hn]
      rw [em, en] at h
      obtain ⟨hq, hr⟩ := List.append_inj' h rfl
      have h1 : m / 10 = n / 10 :=
        ih (m / 10) (Nat.div_lt_self (by omega) (by omega)) (n / 10) hq
      have h2 : m % 10 = n % 10 := by
        refine digitChar_inj _ _ (Nat.mod_lt m (by omega)) (Nat.mod_lt n (by omega)) ?_
        simpa using hr
      omega

theorem append_underscore_inj (xs : List Char) :
    ∀ (ys as bs : List Char), (∀ c ∈ xs, c ≠ '_') → (∀ c ∈ ys, c ≠ '_') →
      xs ++ '_' :: as = ys ++ '_' :: bs → xs = ys ∧ as = bs := by
  induction xs with
  | nil =>
    intro ys as bs _ hys h
    cases ys with
    | nil => simpa using h
    | cons y ys =>
      simp only [List.nil_append, List.cons_append, List.cons.injEq] at h
      exact absurd h.1.symm (hys y (List.mem_cons_self y ys))
  | cons x xs ih =>
    intro ys as bs hxs hys h
    cases ys with
    | nil =>
      simp only [List.nil_append, List.cons_append, List.cons.injEq] at h
      exact absurd h.1 (hxs x (List.mem_cons_self x xs))
    | cons y ys =>
      simp only [List.cons_append, List.cons.injEq] at h
      obtain ⟨h1, h2⟩ := h
      subst h1
      obtain ⟨hx, ha⟩ := ih ys as bs
        (fun c hc => hxs c (List.mem_cons_of_mem x hc))
        (fun c hc => hys c (List.mem_cons_of_mem x hc)) h2
      exact ⟨by rw [hx], ha⟩

theorem string_data_inj (s t : String) (h : s.data = t.data) : s = t := by
  cases s; cases t; cases h; rfl

/-- Injectivity of the synthesized identity scheme: two synthesized ids
agree only when both the site id and the positional index agree (the
decimal index suffix after the final underscore is underscore-free). -/
theorem synth_id_inj (s t : String) (i j : ℕ)
    (h : s ++ "_" ++ toString i = t ++ "_" ++ toString j) : s = t ∧ i = j := by
  have hts : (toString i).data = decimalChars i := repr_data_eq_decimalChars i
  have htt : (toString j).data = decimalChars j := repr_data_eq_decimalChars j
  have hd : s.data ++ '_' :: decimalChars i = t.data ++ '_' :: decimalChars j := by
    have := congrArg String.data h
    rw [String.data_append, String.data_append, String.data_append,
      String.data_append, hts, htt] at this
    simpa using this
  have hrev : (decimalChars i).reverse ++ '_' :: s.data.reverse =
      (decimalChars j).reverse ++ '_' :: t.data.reverse := by
    have := congrArg List.reverse hd
    simpa [List.reverse_append] using this
  obtain ⟨h1, h2⟩ := append_underscore_inj (decimalChars i).reverse
    (decimalChars j).reverse s.data.reverse t.data.reverse
    (fun c hc => decimalChars_ne_underscore i c (List.mem_reverse.1 hc))
    (fun c hc => decimalChars_ne_underscore j c (List.mem_reverse.1 hc)) hrev
  constructor
  · exact string_data_inj s t (List.reverse_injective h2)
  · exact decimalChars_inj i j (List.reverse_injective h1)

/-- A tank entry occurrence in a site-summary list: the site dict sits
at position `i` of `sites`, and the tank dict at position `j` of that
site's `IPSummary` list. -/
def tank_occurrence (sites : List PyVal) (i j : ℕ) (site tank : PyVal) : Prop :=
  sites[i]? = some site ∧ site.isDict = true ∧
  ∃ ts, pyGetD site "IPSummary" (.list []) = .list ts ∧
    ts[j]? = some tank ∧ tank.isDict = true

theorem parse_tank_isDict (pd : String → Option DT) (sid sname : String)
    (j : ℕ) (tank : PyVal) (t : FerrellgasTankData)
    (h : parse_tank pd sid sname j tank = some t) : tank.isDict = true := by
  cases tank
  case dict kvs => rfl
  all_goals cases h

theorem parse_tank_id (pd : String → Option DT) (sid sname : String)
    (j : ℕ) (tank : PyVal) (t : FerrellgasTankData)
    (h : parse_tank pd sid sname j tank = some t) :
    t.installed_product_id = tank_id_of sid j tank := by
  cases tank
  case dict kvs =>
    simp only [parse_tank] at h
    cases h
    rfl
  all_goals cases h

theorem parse_tank_of_isDict (pd : String → Option DT) (sid sname : String)
    (j : ℕ) (tank : PyVal) (h : tank.isDict = true) :
    ∃ t, parse_tank pd sid sname j tank = some t := by
  cases tank
  case dict kvs => exact ⟨_, rfl⟩
  all_goals cases h

/-- Membership characterization for the identity strings produced by one
site's tank loop. -/
theorem mem_parse_site_ids (pd : String → Option DT) (i : ℕ) (site : PyVal)
    (x : String) :
    x ∈ (parse_site pd i site).map (fun t => t.installed_product_id) ↔
    site.isDict = true ∧ ∃ ts j tank,
      pyGetD site "IPSummary" (.list []) = .list ts ∧
      ts[j]? = some tank ∧ tank.isDict = true ∧
      x = tank_id_of (site_id_of i site) j tank := by
  cases site
  case dict kvs =>
    simp only [parse_site]
    cases hip : pyGetD (.dict kvs) "IPSummary" (.list []) with
    | list ts =>
      rw [List.map_filterMap]
      simp only [List.mem_filterMap]
      constructor
      · rintro ⟨p, hp, hpx⟩
        obtain ⟨j, tank⟩ := p
        have hj : ts[j]? = some tank := List.mk_mem_enum_iff_getElem?.1 hp
        rcases Option.map_eq_some'.1 hpx with ⟨t, hpt, rfl⟩
        exact ⟨rfl, ts, j, tank, rfl, hj, parse_tank_isDict _ _ _ _ _ _ hpt,
          (parse_tank_id _ _ _ _ _ _ hpt).symm ▸ rfl⟩
      · rintro ⟨_, ts', j, tank, hts, hj, hd, rfl⟩
        cases hts
        obtain ⟨t, ht⟩ := parse_tank_of_isDict pd (site_id_of i (.dict kvs))
          (pyStr (pyOr (pyGet (.dict kvs) "SiteName")
            (pyOr (pyGet (.dict kvs) "Address1") (.str (site_id_of i (.dict kvs))))))
          j tank hd
        refine ⟨(j, tank), List.mk_mem_enum_iff_getElem?.2 hj, ?_⟩
        rw [ht]
        simp [parse_tank_id _ _ _ _ _ _ ht]
    | none => simp [hip]
    | bool b => simp [hip]
    | int n => simp [hip]
    | float q => simp [hip]
    | str s => simp [hip]
    | dict kvs2 => simp [hip]
  all_goals simp [parse_site, PyVal.isDict]

/-- Two distinct tank occurrences receive distinct identities, provided
site ids are distinct across distinct site positions, the
provider-supplied ids are pairwise distinct, and no provider id collides
with a synthesized one. -/
theorem distinct_tank_ids (sites : List PyVal)
    (Hsite : ∀ i i' site site', sites[i]? = some site → sites[i']? = some site' →
      i ≠ i' → site_id_of i site ≠ site_id_of i' site')
    (Hprov : ∀ i j site tank i' j' site' tank' s s',
      tank_occurrence sites i j site tank →
      tank_occurrence sites i' j' site' tank' →
      provider_id tank = some s → provider_id tank' = some s' →
      ¬ (i = i' ∧ j = j') → s ≠ s')
    (Hmix : ∀ i j site tank i' j' site' tank' s,
      tank_occurrence sites i j site tank →
      tank_occurrence sites i' j' site' tank' →
      provider_id tank = some s → provider_id tank' = Option.none →
      s ≠ site_id_of i' site' ++ "_" ++ toString j')
    (i j : ℕ) (site tank : PyVal) (i' j' : ℕ) (site' tank' : PyVal)
    (ho : tank_occurrence sites i j site tank)
    (ho' : tank_occurrence sites i' j' site' tank')
    (hne : ¬ (i = i' ∧ j = j')) :
    tank_id_of (site_id_of i site) j tank ≠
      tank_id_of (site_id_of i' site') j' tank' := by
  intro heq
  rw [tank_id_of, tank_id_of] at heq
  cases hp : provider_id tank <;> cases hp' : provider_id tank' <;>
    rw [hp, hp'] at heq <;>
      simp only [Option.getD_none, Option.getD_some] at heq
  · obtain ⟨hsid, hj⟩ := synth_id_inj _ _ _ _ heq
    by_cases hii : i = i'
    · exact hne ⟨hii, hj⟩
    · exact Hsite i i' site site' ho.1 ho'.1 hii hsid
  · rename_i s'
    exact Hmix i' j' site' tank' i j site tank s' ho' ho hp' hp heq.symm
  · rename_i s
    exact Hmix i j site tank i' j' site' tank' s ho ho' hp hp' heq
  · rename_i s s'
    exact Hprov i j site tank i' j' site' tank' s s' ho ho' hp hp' hne heq

theorem enum_pairwise (l : List α) :
    l.enum.Pairwise (fun p q => l[p.1]? = some p.2 ∧ l[q.1]? = some q.2 ∧
      p.1 ≠ q.1) := by
  apply List.pairwise_iff_get.2
  intro a b hab
  have ha : a.1 < l.length := by
    have := a.2
    simpa using this
  have hb : b.1 < l.length := by
    have := b.2
    simpa using this
  simp only [List.get_eq_getElem, List.getElem_enum]
  exact ⟨List.getElem?_eq_getElem ha, List.getElem?_eq_getElem hb,
    Nat.ne_of_lt hab⟩

/-- Claim C7 (amended): `installed_product_id` is unique within the
snapshot's tank sequence provided that distinct site entries carry
distinct computed site ids, the provider-supplied ids are pairwise
distinct across tank occurrences, and no provider-supplied id collides
with a synthesized `"{site_id}_{index}"` id.  (Without these
hypotheses the parser performs no deduplication: see the
counterexample with a repeated site id.) -/
theorem spec_C7 (pd : String → Option DT) (account_id : String) (payload : PyVal)
    (sites : List PyVal)
    (hs : pyGetD payload "SiteSummary" (.list []) = .list sites)
    (Hsite : ∀ i i' site site', sites[i]? = some site → sites[i']? = some site' →
      i ≠ i' → site_id_of i site ≠ site_id_of i' site')
    (Hprov : ∀ i j site tank i' j' site' tank' s s',
      tank_occurrence sites i j site tank →
      tank_occurrence sites i' j' site' tank' →
      provider_id tank = some s → provider_id tank' = some s' →
      ¬ (i = i' ∧ j = j') → s ≠ s')
    (Hmix : ∀ i j site tank i' j' site' tank' s,
      tank_occurrence sites i j site tank →
      tank_occurrence sites i' j' site' tank' →
      provider_id tank = some s → provider_id tank' = Option.none →
      s ≠ site_id_of i' site' ++ "_" ++ toString j') :
    ((parse_account_summary pd account_id payload).tanks.map
      (fun t => t.installed_product_id)).Pairwise (fun a b => a ≠ b) := by
  have htanks : (parse_account_summary pd account_id payload).tanks =
      (sites.enum.map (fun p => parse_site pd p.1 p.2)).flatten := by
    simp only [parse_account_summary]
    rw [hs]
  rw [htanks, List.map_flatten, List.map_map]
  rw [List.pairwise_flatten]
  constructor
  · intro l hl
    rcases List.mem_map.1 hl with ⟨p, hp, rfl⟩
    obtain ⟨i, site⟩ := p
    have hps : sites[i]? = some site := List.mk_mem_enum_iff_getElem?.1 hp
    simp only [Function.comp]
    cases site
    case dict kvs =>
      simp only [parse_site]
      cases hip : pyGetD (.dict kvs) "IPSummary" (.list []) with
      | list ts =>
        rw [List.map_filterMap]
        apply List.pairwise_filterMap.2
        refine (enum_pairwise ts).imp ?_
        rintro ⟨j, tank⟩ ⟨j', tank'⟩ ⟨hj, hj', hjj⟩ x hx y hy
        rcases Option.map_eq_some'.1 hx with ⟨t, ht, rfl⟩
        rcases Option.map_eq_some'.1 hy with ⟨t', ht', rfl⟩
        rw [parse_tank_id _ _ _ _ _ _ ht, parse_tank_id _ _ _ _ _ _ ht']
        exact distinct_tank_ids sites Hsite Hprov Hmix i j (.dict kvs) tank
          i j' (.dict kvs) tank'
          ⟨hps, rfl, ts, hip, hj, parse_tank_isDict _ _ _ _ _ _ ht⟩
          ⟨hps, rfl, ts, hip, hj', parse_tank_isDict _ _ _ _ _ _ ht'⟩
          (fun hc => hjj hc.2)
      | none => simp
      | bool b => simp
      | int n => simp
      | float q => simp
      | str s => simp
      | dict kvs2 => simp
    all_goals simp [parse_site]
  · rw [List.pairwise_map]
    refine (enum_pairwise sites).imp ?_
    rintro ⟨i, site⟩ ⟨i', site'⟩ ⟨hi, hi', hii⟩ x hx y hy
    simp only [Function.comp] at hx hy
    obtain ⟨hdict, hrest⟩ := (mem_parse_site_ids pd i site x).1 hx
    obtain ⟨ts, j, tank, hts, hj, hd, rfl⟩ := hrest
    obtain ⟨hdict', hrest'⟩ := (mem_parse_site_ids pd i' site' y).1 hy
    obtain ⟨ts', j', tank', hts', hj', hd', rfl⟩ := hrest'
    exact distinct_tank_ids sites Hsite Hprov Hmix i j site tank i' j' site' tank'
      ⟨hi, hdict, ts, hts, hj, hd⟩ ⟨hi', hdict', ts', hts', hj', hd'⟩
      (fun hc => hii hc.1)

/-- Counterexample to claim C7 as stated: a payload with two sites
carrying the same `SiteId` and tanks lacking provider ids synthesizes
the duplicate identity `"S1_0"` twice — uniqueness fails. -/
theorem spec_C7_cex :
    ¬ ((parse_account_summary (fun _ => Option.none) "ACC"
        (.dict [("SiteSummary", .list
          [.dict [("SiteId", .str "S1"), ("IPSummary", .list [.dict []])],
           .dict [("SiteId", .str "S1"),
                  ("IPSummary", .list [.dict []])]])])).tanks.map
      (fun t => t.installed_product_id)).Pairwise (fun a b => a ≠ b) := by
  intro h
  have hids : ((parse_account_summary (fun _ => Option.none) "ACC"
      (.dict [("SiteSummary", .list
        [.dict [("SiteId", .str "S1"), ("IPSummary", .list [.dict []])],
         .dict [("SiteId", .str "S1"),
                ("IPSummary", .list [.dict []])]])])).tanks.map
      (fun t => t.installed_product_id)) = ["S1_0", "S1_0"] := rfl
  rw [hids] at h
  rcases List.pairwise_cons.1 h with ⟨hh, _⟩
  exact hh "S1_0" (List.mem_singleton_self _) rfl

/-- Witness for `spec_C7`: a single-site payload mixing one
provider-supplied id with one synthesized id satisfies the amended
hypotheses, and the parsed identities (`"IPX"`, `"S1_1"`) are pairwise
distinct. -/
theorem spec_C7_witness :
    ((parse_account_summary (fun _ => Option.none) "ACC"
        (.dict [("SiteSummary", .list
          [.dict [("SiteId", .str "S1"), ("IPSummary", .list
            [.dict [("InstalledProductId", .str "IPX")],
             .dict []])]])])).tanks.map
      (fun t => t.installed_product_id)).Pairwise (fun a b => a ≠ b) := by
  apply spec_C7 (fun _ => Option.none) "ACC"
    (.dict [("SiteSummary", .list
      [.dict [("SiteId", .str "S1"), ("IPSummary", .list
        [.dict [("InstalledProductId", .str "IPX")],
         .dict []])]])])
    [.dict [("SiteId", .str "S1"), ("IPSummary", .list
      [.dict [("InstalledProductId", .str "IPX")], .dict []])]] rfl
  · intro i i' site site' h h' hne
    exfalso
    cases i with
    | zero =>
      cases i' with
      | zero => exact hne rfl
      | succ n => simp at h'
    | succ n => simp at h
  · intro i j site tank i' j' site' tank' s s' ho ho' hp hp' hne
    exfalso
    obtain ⟨hsi, _, ts, hts, htj, _⟩ := ho
    obtain ⟨hsi', _, ts', hts', htj', _⟩ := ho'
    cases i with
    | succ n => simp at hsi
    | zero =>
      cases i' with
      | succ n => simp at hsi'
      | zero =>
        simp only [List.getElem?_cons_zero, Option.some.injEq] at hsi hsi'
        subst hsi; subst hsi'
        rw [show pyGetD (.dict [("SiteId", .str "S1"), ("IPSummary", .list
          [.dict [("InstalledProductId", .str "IPX")], .dict []])])
          "IPSummary" (.list []) = PyVal.list
            [.dict [("InstalledProductId", .str "IPX")], .dict []] from rfl] at hts hts'
        cases hts; cases hts'
        match j, htj with
        | 0, htj =>
          match j', htj' with
          | 0, htj' =>
            simp only [List.getElem?_cons_zero, Option.some.injEq] at htj htj'
            subst htj; subst htj'
            exact hne ⟨rfl, rfl⟩
          | 1, htj' =>
            simp only [List.getElem?_cons_succ, List.getElem?_cons_zero,
              Option.some.injEq] at htj'
            subst htj'
            exact Option.noConfusion hp'
          | n + 2, htj' => simp at htj'
        | 1, htj =>
          simp only [List.getElem?_cons_succ, List.getElem?_cons_zero,
            Option.some.injEq] at htj
          subst htj
          exact Option.noConfusion hp
        | n + 2, htj => simp at htj
  · intro i j site tank i' j' site' tank' s ho ho' hp hp'
    obtain ⟨hsi, _, ts, hts, htj, _⟩ := ho
    obtain ⟨hsi', _, ts', hts', htj', _⟩ := ho'
    cases i with
    | succ n => simp at hsi
    | zero =>
      cases i' with
      | succ n => simp at hsi'
      | zero =>
        simp only [List.getElem?_cons_zero, Option.some.injEq] at hsi hsi'
        subst hsi; subst hsi'
        rw [show pyGetD (.dict [("SiteId", .str "S1"), ("IPSummary", .list
          [.dict [("InstalledProductId", .str "IPX")], .dict []])])
          "IPSummary" (.list []) = PyVal.list
            [.dict [("InstalledProductId", .str "IPX")], .dict []] from rfl] at hts hts'
        cases hts; cases hts'
        match j, htj with
        | 0, htj =>
          simp only [List.getElem?_cons_zero, Option.some.injEq] at htj
          subst htj
          have hs : s = "IPX" := by
            have h2 : some "IPX" = some s := hp
            exact (Option.some.inj h2).symm
          subst hs
          match j', htj' with
          | 0, htj' =>
            simp only [List.getElem?_cons_zero, Option.some.injEq] at htj'
            subst htj'
            exact Option.noConfusion hp'
          | 1, htj' => decide
          | n + 2, htj' => simp at htj'
        | 1, htj =>
          simp only [List.getElem?_cons_succ, List.getElem?_cons_zero,
            Option.some.injEq] at htj
          subst htj
          exact Option.noConfusion hp
        | n + 2, htj => simp at htj

end Ferrellgas
